import Mathlib

/-!
# TheaterDashboard: the client-side orchestration layer of `static/script.js`

A shallow embedding of the browser script and the properties of its loaders,
populators, form handlers, navigation and bootstrap.

Modelling conventions.

* The page is an explicit state (`Page`): the children of every table body,
  the options of every select control, the markup of every result panel, the
  alerts appended to `#global-alert-container` and the requests handed to
  `fetch`, each addressed by element id. Every element the script looks up
  exists. `console.error` leaves no trace in the state.
* An `await` on the network is an input of the function that awaits: the
  outcome of the request (`Except String (Response α)`, the error being the
  message of the rejection) is passed in, and the request itself is logged in
  `Page.requests` at the point where the source calls `fetch`.
* Backend records are typed (`Movie`, `Customer`, `Showtime`, `TicketSale`,
  `HistoryRow`, the report bodies); identifiers and counts are naturals
  (JavaScript numbers in the safe-integer range, printed in decimal), texts
  are strings, a price is a finite double given by its exact value
  (`JsNumber`). The bodies of `apiPost` are untyped JSON values (`Json`).
* A template literal is the concatenation of its pieces, whitespace included.
* Markup assigned through `innerHTML` that is a literal of the source is kept
  in parsed form (`TableRow.placeholder`, `OptionEl`); markup with interpolated
  values is kept as the assigned string.
* The nine loaders that `initApp` starts together are suspended tasks
  (`TaskState`); the order in which their fetches settle is a parameter
  (`schedule`). A loader writes to the page only after its last `await`, in
  one block, so one settlement is one step (`Boot.step`).
-/

set_option autoImplicit false

namespace TheaterDashboard

/-! ## Platform values -/

/-- `Number.MAX_SAFE_INTEGER`: up to here every natural is a double. -/
def MAX_SAFE_INTEGER : Nat := 2 ^ 53 - 1

/-- A finite double by its exact value `(-1)^neg * mant * 2^exp`. -/
structure JsNumber where
  neg : Bool
  mant : Nat
  exp : Int
  deriving DecidableEq, Repr

/-- The integer `n` of `Number.prototype.toFixed(2)`, step 11: the integer for
which `n / 100 - x` is closest to zero, the larger one on a tie, for the
magnitude `x = mant * 2^exp`. -/
def JsNumber.hundredths (x : JsNumber) : Nat :=
  match x.exp with
  | Int.ofNat e => x.mant * 2 ^ e * 100
  | Int.negSucc k => (x.mant * 100 * 2 + 2 ^ (k + 1)) / 2 ^ (k + 2)

/-- Left-pads a digit string with zeros up to three characters (steps 11.c of
`toFixed` with `f = 2`). -/
def padHundredths (ds : List Char) : List Char :=
  List.replicate (3 - ds.length) '0' ++ ds

/-- `x.toFixed(2)` for a finite double of magnitude below `10^21` (the branch
of larger magnitudes, which prints in exponent form, is outside the model). -/
def JsNumber.toFixed2 (x : JsNumber) : String :=
  let s := if x.neg && decide (0 < x.mant) then "-" else ""
  let m := padHundredths (toString x.hundredths).data
  s ++ String.mk (m.take (m.length - 2)) ++ "." ++ String.mk (m.drop (m.length - 2))

/-- The code points of `WhiteSpace` and `LineTerminator`, which
`String.prototype.trim` strips. -/
def isJsWhiteSpace (c : Char) : Bool :=
  c.val == 0x09 || c.val == 0x0A || c.val == 0x0B || c.val == 0x0C || c.val == 0x0D ||
  c.val == 0x20 || c.val == 0xA0 || c.val == 0x1680 ||
  (0x2000 ≤ c.val && c.val ≤ 0x200A) ||
  c.val == 0x2028 || c.val == 0x2029 || c.val == 0x202F || c.val == 0x205F ||
  c.val == 0x3000 || c.val == 0xFEFF

/-- `String.prototype.trim`. -/
def jsTrim (s : String) : String :=
  String.mk ((s.data.dropWhile isJsWhiteSpace).reverse.dropWhile isJsWhiteSpace).reverse

/-! ## The page -/

/-- An alert element appended to `#global-alert-container`: its text, the
`alert-{type}` class and the delay of its dismissal timer (`0`: no timer). -/
structure Alert where
  message : String
  type : String
  timeoutMs : Nat
  deriving DecidableEq, Repr

/-- A child of a table body. `placeholder c cls text` is the parsed literal
`<tr><td colspan="c" class="cls">text</td></tr>`; `tr html` is an element made
by `document.createElement("tr")` whose `innerHTML` was set to `html`. -/
inductive TableRow where
  | placeholder (colspan : Nat) (cls : String) (text : String)
  | tr (innerHTML : String)
  deriving DecidableEq, Repr

/-- An `option` element: its `value` and its text. -/
structure OptionEl where
  value : String
  textContent : String
  deriving DecidableEq, Repr

/-- A call of `fetch`: method, URL and body. -/
structure Request where
  method : String
  url : String
  body : Option String
  deriving DecidableEq, Repr

/-- The state of the page, by element id. -/
structure Page where
  tbody : String → List TableRow
  select : String → List OptionEl
  div : String → String
  alerts : List Alert
  requests : List Request

/-- A page with empty regions, no alert and no request. -/
def Page.empty : Page :=
  { tbody := fun _ => [], select := fun _ => [], div := fun _ => "", alerts := [], requests := [] }

/-- Replaces the children of table body `id`. -/
def Page.setTbody (p : Page) (id : String) (rows : List TableRow) : Page :=
  { p with tbody := fun k => if k = id then rows else p.tbody k }

/-- Replaces the options of select `id`. -/
def Page.setSelect (p : Page) (id : String) (opts : List OptionEl) : Page :=
  { p with select := fun k => if k = id then opts else p.select k }

/-- Sets `innerHTML` of panel `id`. -/
def Page.setDiv (p : Page) (id : String) (html : String) : Page :=
  { p with div := fun k => if k = id then html else p.div k }

/-- `tbody.appendChild(tr)` on table body `id`. -/
def Page.appendRow (p : Page) (id : String) (row : TableRow) : Page :=
  p.setTbody id (p.tbody id ++ [row])

/-- `select.appendChild(opt)` on select `id`. -/
def Page.appendOption (p : Page) (id : String) (opt : OptionEl) : Page :=
  p.setSelect id (p.select id ++ [opt])

/-- Base API path. -/
def API_BASE : String := "/api"

/-- The default of the parameter `type` of `showGlobalAlert`. -/
def defaultAlertType : String := "info"

/-- The default of the parameter `timeoutMs` of `showGlobalAlert`. -/
def defaultTimeoutMs : Nat := 4000

/-- `showGlobalAlert(message, type, timeoutMs)`: the alert element is appended
to the container; the timer, set when `timeoutMs` is not `0`, only removes it
later. A call of the source that omits an argument passes its default here. -/
def showGlobalAlert (message : String) (type : String) (timeoutMs : Nat) (p : Page) : Page :=
  { p with alerts := p.alerts ++ [{ message := message, type := type, timeoutMs := timeoutMs }] }

/-- A settled `fetch`: `ok`, `status`, what `res.text()` resolves to and what
`res.json()` resolves to or rejects with. -/
structure Response (α : Type) where
  ok : Bool
  status : Nat
  text : String
  json : Except String α

/-- The call `fetch(url)` of `apiGet`, which is made before anything is awaited. -/
def apiGet.request (path : String) (p : Page) : Page :=
  { p with requests := p.requests ++ [{ method := "GET", url := API_BASE ++ path, body := none }] }

/-- What `await apiGet(path)` yields once the fetch has settled with `res`:
the parsed body, or the message of the error thrown. -/
def apiGet.settle {α : Type} (path : String) (res : Except String (Response α)) :
    Except String α :=
  match res with
  | .error msg => .error msg
  | .ok r =>
    if !r.ok then
      .error ("GET " ++ path ++ " failed: " ++ toString r.status ++ " " ++ r.text)
    else r.json

/-- `apiGet(path)`: the request is issued, then the outcome is awaited. -/
def apiGet {α : Type} (path : String) (res : Except String (Response α)) (p : Page) :
    Except String α × Page :=
  (apiGet.settle path res, apiGet.request path p)

/-! ## Records of the backend -/

/-- A movie of `/movies`, `/movies/now-playing`, `/movies/upcoming`. -/
structure Movie where
  movie_id : Nat
  title : String
  genre : String
  runtime : Nat
  release_date : String
  is_active : Bool
  deriving DecidableEq, Repr

/-- A customer of `/customers`; `lname` may be `null`. -/
structure Customer where
  customer_id : Nat
  fname : String
  lname : Option String
  deriving DecidableEq, Repr

/-- A showtime of `/showtimes`. -/
structure Showtime where
  showtime_id : Nat
  movie_id : Nat
  start_time : String
  end_time : String
  theater_id : Nat
  deriving DecidableEq, Repr

/-- A ticket sale of `/tickets`, `/tickets/today`. -/
structure TicketSale where
  ticket_sale_id : Nat
  customer_id : Nat
  showtime_id : Nat
  ticket_price : JsNumber
  time_ticket_sold : String
  deriving DecidableEq, Repr

/-- A row of `/tickets/customers/{id}/tickets`. -/
structure HistoryRow where
  ticket_sale_id : Nat
  movie_title : String
  showtime_id : Nat
  ticket_price : JsNumber
  deriving DecidableEq, Repr

/-! ## Overview section -/

/-- The row built in the loop of `loadNowPlaying`. -/
def nowPlayingRow (m : Movie) : TableRow :=
  .tr ("\n        <td>" ++ m.title ++ "</td>\n        <td>" ++ m.genre ++
    "</td>\n        <td>" ++ toString m.runtime ++ " min</td>\n      ")

/-- The part of `loadNowPlaying` after `await apiGet(...)`. -/
def loadNowPlaying.resume (movies : Except String (List Movie)) (p : Page) : Page :=
  match movies with
  | .ok movies =>
    let p := p.setTbody "table-now-playing" []
    if movies.length = 0 then
      p.setTbody "table-now-playing" [.placeholder 3 "text-muted" "No active movies."]
    else
      movies.foldl (fun p m => p.appendRow "table-now-playing" (nowPlayingRow m)) p
  | .error message =>
    showGlobalAlert ("Failed to load now playing movies: " ++ message) "danger" defaultTimeoutMs p

/-- `loadNowPlaying()`. -/
def loadNowPlaying (res : Except String (Response (List Movie))) (p : Page) : Page :=
  let (movies, p) := apiGet "/movies/now-playing" res p
  loadNowPlaying.resume movies p

/-- The row built in the loop of `loadUpcomingMovies`. -/
def upcomingRow (m : Movie) : TableRow :=
  .tr ("\n        <td>" ++ m.title ++ "</td>\n        <td>" ++ m.genre ++
    "</td>\n        <td>" ++ m.release_date ++ "</td>\n      ")

/-- The part of `loadUpcomingMovies` after `await apiGet(...)`. -/
def loadUpcomingMovies.resume (movies : Except String (List Movie)) (p : Page) : Page :=
  match movies with
  | .ok movies =>
    let p := p.setTbody "table-upcoming" []
    if movies.length = 0 then
      p.setTbody "table-upcoming" [.placeholder 3 "text-muted" "No upcoming movies."]
    else
      movies.foldl (fun p m => p.appendRow "table-upcoming" (upcomingRow m)) p
  | .error message =>
    showGlobalAlert ("Failed to load upcoming movies: " ++ message) "danger" defaultTimeoutMs p

/-- `loadUpcomingMovies()`. -/
def loadUpcomingMovies (res : Except String (Response (List Movie))) (p : Page) : Page :=
  let (movies, p) := apiGet "/movies/upcoming" res p
  loadUpcomingMovies.resume movies p

/-- The row built in the loop of `loadAllMovies`. -/
def allMoviesRow (m : Movie) : TableRow :=
  let activeBadge :=
    if m.is_active then "<span class=\"badge bg-success\">Yes</span>"
    else "<span class=\"badge bg-secondary\">No</span>"
  .tr ("\n        <td>" ++ m.title ++ "</td>\n        <td>" ++ m.genre ++
    "</td>\n        <td>" ++ activeBadge ++ "</td>\n      ")

/-- The part of `loadAllMovies` after `await apiGet(...)`. -/
def loadAllMovies.resume (movies : Except String (List Movie)) (p : Page) : Page :=
  match movies with
  | .ok movies =>
    let p := p.setTbody "table-all-movies" []
    if movies.length = 0 then
      p.setTbody "table-all-movies" [.placeholder 3 "text-muted" "No movies found."]
    else
      movies.foldl (fun p m => p.appendRow "table-all-movies" (allMoviesRow m)) p
  | .error message =>
    showGlobalAlert ("Failed to load all movies: " ++ message) "danger" defaultTimeoutMs p

/-- `loadAllMovies()`. -/
def loadAllMovies (res : Except String (Response (List Movie))) (p : Page) : Page :=
  let (movies, p) := apiGet "/movies" res p
  loadAllMovies.resume movies p

/-! ## Ticket tables -/

/-- The row built in the loop of `loadTicketsToday`. -/
def ticketsTodayRow (t : TicketSale) : TableRow :=
  .tr ("\n        <td>" ++ toString t.ticket_sale_id ++ "</td>\n        <td>" ++
    toString t.customer_id ++ "</td>\n        <td>" ++ toString t.showtime_id ++
    "</td>\n        <td>$" ++ t.ticket_price.toFixed2 ++ "</td>\n      ")

/-- The part of `loadTicketsToday` after `await apiGet(...)`. -/
def loadTicketsToday.resume (tickets : Except String (List TicketSale)) (p : Page) : Page :=
  match tickets with
  | .ok tickets =>
    let p := p.setTbody "table-tickets-today" []
    if tickets.length = 0 then
      p.setTbody "table-tickets-today" [.placeholder 4 "text-muted" "No tickets sold today."]
    else
      tickets.foldl (fun p t => p.appendRow "table-tickets-today" (ticketsTodayRow t)) p
  | .error message =>
    showGlobalAlert ("Failed to load today's tickets: " ++ message) "danger" defaultTimeoutMs p

/-- `loadTicketsToday()`. -/
def loadTicketsToday (res : Except String (Response (List TicketSale))) (p : Page) : Page :=
  let (tickets, p) := apiGet "/tickets/today" res p
  loadTicketsToday.resume tickets p

/-- The row built in the loop of `loadAllTickets`. -/
def allTicketsRow (t : TicketSale) : TableRow :=
  .tr ("\n        <td>" ++ toString t.ticket_sale_id ++ "</td>\n        <td>" ++
    toString t.customer_id ++ "</td>\n        <td>" ++ toString t.showtime_id ++
    "</td>\n        <td>$" ++ t.ticket_price.toFixed2 ++ "</td>\n        <td>" ++
    t.time_ticket_sold ++ "</td>\n      ")

/-- The part of `loadAllTickets` after `await apiGet(...)`. -/
def loadAllTickets.resume (tickets : Except String (List TicketSale)) (p : Page) : Page :=
  match tickets with
  | .ok tickets =>
    let p := p.setTbody "table-all-tickets" []
    if tickets.length = 0 then
      p.setTbody "table-all-tickets" [.placeholder 5 "text-muted" "No tickets found."]
    else
      tickets.foldl (fun p t => p.appendRow "table-all-tickets" (allTicketsRow t)) p
  | .error message =>
    showGlobalAlert ("Failed to load all tickets: " ++ message) "danger" defaultTimeoutMs p

/-- `loadAllTickets()`. -/
def loadAllTickets (res : Except String (Response (List TicketSale))) (p : Page) : Page :=
  let (tickets, p) := apiGet "/tickets" res p
  loadAllTickets.resume tickets p

/-! ## JSON values -/

/-- A value produced by `JSON.parse`; numbers are integers in the model. The
`fields` of an object are its properties in enumeration order, with distinct
keys. -/
inductive Json where
  | null
  | bool (b : Bool)
  | num (n : Int)
  | str (s : String)
  | arr (items : List Json)
  | obj (fields : List (String × Json))
  deriving Repr

/-- A hexadecimal digit, lower case. -/
def hexDigitLower (n : Nat) : Char :=
  if n < 10 then Char.ofNat (48 + n) else Char.ofNat (87 + n)

/-- `QuoteJSONString` for one code point. -/
def quoteJSONChar (c : Char) : List Char :=
  if c = '"' then ['\\', '"']
  else if c = '\\' then ['\\', '\\']
  else if c.val = 0x08 then ['\\', 'b']
  else if c.val = 0x0C then ['\\', 'f']
  else if c.val = 0x0A then ['\\', 'n']
  else if c.val = 0x0D then ['\\', 'r']
  else if c.val = 0x09 then ['\\', 't']
  else if c.val < 0x20 then
    ['\\', 'u', '0', '0', hexDigitLower (c.toNat / 16), hexDigitLower (c.toNat % 16)]
  else [c]

/-- `QuoteJSONString`. -/
def quoteJSONString (s : String) : String :=
  "\"" ++ String.mk (s.data.flatMap quoteJSONChar) ++ "\""

/-- `JSON.stringify(value)` without indentation; the keys of an object are
printed in the order of `fields`. -/
def Json.stringify : Json → String
  | .null => "null"
  | .bool b => if b then "true" else "false"
  | .num n => toString n
  | .str s => quoteJSONString s
  | .arr items => "[" ++ stringifyItems items ++ "]"
  | .obj fields => "\x7b" ++ stringifyFields fields ++ "\x7d"
where
  /-- The items of an array, separated by commas. -/
  stringifyItems : List Json → String
    | [] => ""
    | x :: xs => x.stringify ++ (if xs.isEmpty then "" else ",") ++ stringifyItems xs
  /-- The fields of an object, separated by commas. -/
  stringifyFields : List (String × Json) → String
    | [] => ""
    | (k, x) :: xs =>
      quoteJSONString k ++ ":" ++ x.stringify ++ (if xs.isEmpty then "" else ",") ++
        stringifyFields xs

/-- `ToString(value)`, as applied by `new Error(value)` and by a template
literal. -/
def Json.toJsString : Json → String
  | .null => "null"
  | .bool b => if b then "true" else "false"
  | .num n => toString n
  | .str s => s
  | .arr items => joinItems items
  | .obj _ => "[object Object]"
where
  /-- `Array.prototype.join(",")`: `null` items print as the empty string. -/
  joinItems : List Json → String
    | [] => ""
    | x :: xs =>
      (match x with
        | .null => ""
        | y => y.toJsString) ++ (if xs.isEmpty then "" else ",") ++ joinItems xs

/-- `ToBoolean(value)`. -/
def Json.truthy : Json → Bool
  | .null => false
  | .bool b => b
  | .num n => n != 0
  | .str s => s != ""
  | .arr _ => true
  | .obj _ => true

/-- The message of the `TypeError` of a property read on `null` (V8 wording). -/
def nullPropertyMessage (key : String) : String :=
  "Cannot read properties of null (reading '" ++ key ++ "')"

/-- The message of the `TypeError` of reading a body a second time (Chromium
wording). -/
def bodyAlreadyReadMessage : String :=
  "Failed to execute 'text' on 'Response': body stream already read"

/-- The property read `value.key` for a key that no prototype defines
(`detail`, `message`): `none` is `undefined`, a read on `null` throws. -/
def Json.getProp (value : Json) (key : String) : Except String (Option Json) :=
  match value with
  | .null => .error (nullPropertyMessage key)
  | .obj fields => .ok (fields.lookup key)
  | _ => .ok none

/-- A template literal's `${value}`, `undefined` included. -/
def interpolate : Option Json → String
  | none => "undefined"
  | some v => v.toJsString

/-- The value of a run of decimal digits read after `acc`. -/
def digitsValue (ds : List Char) (acc : Nat) : Nat :=
  ds.foldl (fun acc c => 10 * acc + (c.toNat - 48)) acc

/-- `parseInt(string, 10)`; `none` is `NaN`. Exact while the magnitude stays
within `MAX_SAFE_INTEGER`. -/
def parseInt (s : String) : Option Int :=
  let S := s.data.dropWhile isJsWhiteSpace
  let sign : Int := if S.head? = some '-' then -1 else 1
  let S := if S.head? = some '-' ∨ S.head? = some '+' then S.tail else S
  let Z := S.takeWhile Char.isDigit
  if Z.isEmpty then none
  else some (sign * Int.ofNat (digitsValue Z 0))

/-- A number that may be `NaN` as a member of a request body: `JSON.stringify`
prints `NaN` as `null`. -/
def numberOrNaN : Option Int → Json
  | some n => .num n
  | none => .null

/-! ## API client: writes -/

/-- The call `fetch(url, {method: "POST", ...})` of `apiPost`. -/
def apiPost.request (path : String) (bodyObj : Json) (p : Page) : Page :=
  { p with requests := p.requests ++
      [{ method := "POST", url := API_BASE ++ path, body := some bodyObj.stringify }] }

/-- The `detail` computed by `apiPost` from a parsed error body, or the message
of the `TypeError` of the property read. -/
def apiPost.detail (data : Json) : Except String String :=
  match data.getProp "detail" with
  | .error message => .error message
  | .ok (some d) => .ok (if d.truthy then d.toJsString else data.stringify)
  | .ok none => .ok data.stringify

/-- What `await apiPost(path, bodyObj)` yields once the fetch has settled with
`res`. On a failure status the body is read by `res.json()`; when that read or
the property read throws, the `catch` calls `res.text()` on the body already
read, which rejects, and that rejection is what `apiPost` throws. -/
def apiPost.settle (res : Except String (Response Json)) : Except String Json :=
  match res with
  | .error msg => .error msg
  | .ok r =>
    if !r.ok then
      match r.json with
      | .ok data =>
        match apiPost.detail data with
        | .ok detail => .error detail
        | .error _ => .error bodyAlreadyReadMessage
      | .error _ => .error bodyAlreadyReadMessage
    else r.json

/-- `apiPost(path, bodyObj)`. -/
def apiPost (path : String) (bodyObj : Json) (res : Except String (Response Json)) (p : Page) :
    Except String Json × Page :=
  (apiPost.settle res, apiPost.request path bodyObj p)

/-! ## Ticket purchase -/

/-- The success panel of the purchase form. -/
def purchaseSuccessPanel (message : String) : String :=
  "\n        <div class=\"alert alert-success mb-0\" role=\"alert\">\n          " ++ message ++
    "\n        </div>\n      "

/-- The failure panel of the purchase form. -/
def purchaseFailurePanel (message : String) : String :=
  "\n        <div class=\"alert alert-danger mb-0\" role=\"alert\">\n          " ++ message ++
    "\n        </div>\n      "

/-- The `catch` block of the purchase handler. -/
def purchaseSubmit.onError (message : String) (p : Page) : Page :=
  let p := p.setDiv "purchase-ticket-result" (purchaseFailurePanel message)
  showGlobalAlert ("Ticket purchase failed: " ++ message) "danger" defaultTimeoutMs p

/-- The submit handler of `initTicketPurchaseForm`, for the values of
`select-customer` and `select-showtime` and the outcome of the request. -/
def purchaseSubmit (customerId showtimeId : String) (res : Except String (Response Json))
    (p : Page) : Page :=
  let p := p.setDiv "purchase-ticket-result" ""
  if customerId = "" ∨ showtimeId = "" then
    showGlobalAlert "Please select both customer and showtime." "warning" defaultTimeoutMs p
  else
    let (r, p) := apiPost "/tickets/purchase"
      (.obj [("customer_id", numberOrNaN (parseInt customerId)),
             ("showtime_id", numberOrNaN (parseInt showtimeId))]) res p
    match r with
    | .ok res =>
      match res.getProp "message" with
      | .ok message =>
        let p := p.setDiv "purchase-ticket-result" (purchaseSuccessPanel (interpolate message))
        showGlobalAlert "Ticket purchase succeeded." "success" defaultTimeoutMs p
      | .error message => purchaseSubmit.onError message p
    | .error message => purchaseSubmit.onError message p

/-! ## Dropdown populators -/

/-- The option built in the loop of `loadCustomersIntoSelect`. -/
def customerOption (c : Customer) : OptionEl :=
  { value := toString c.customer_id,
    textContent := jsTrim (toString c.customer_id ++ " — " ++ c.fname ++ " " ++ c.lname.getD "") }

/-- The part of `loadCustomersIntoSelect` after `await apiGet(...)`. -/
def loadCustomersIntoSelect.resume (selectId : String) (customers : Except String (List Customer))
    (p : Page) : Page :=
  match customers with
  | .ok customers =>
    let p := p.setSelect selectId [{ value := "", textContent := "Select a customer..." }]
    customers.foldl (fun p c => p.appendOption selectId (customerOption c)) p
  | .error message =>
    showGlobalAlert ("Failed to load customers: " ++ message) "danger" defaultTimeoutMs p

/-- `loadCustomersIntoSelect(selectId)`. -/
def loadCustomersIntoSelect (selectId : String) (res : Except String (Response (List Customer)))
    (p : Page) : Page :=
  let (customers, p) := apiGet "/customers" res p
  loadCustomersIntoSelect.resume selectId customers p

/-- The object `moviesById` after `movies.forEach(m => moviesById[m.movie_id] = m.title)`:
the latest assignment to a key is found first. -/
def buildMoviesById (movies : List Movie) : List (Nat × String) :=
  movies.foldl (fun moviesById m => (m.movie_id, m.title) :: moviesById) []

/-- The `movieTitle` of the loop: the looked-up title unless it is `undefined` or empty. -/
def movieTitleOf (moviesById : List (Nat × String)) (s : Showtime) : String :=
  match moviesById.lookup s.movie_id with
  | some title => if title ≠ "" then title else "Movie " ++ toString s.movie_id
  | none => "Movie " ++ toString s.movie_id

/-- The option built in the loop of `loadShowtimesIntoSelect`. -/
def showtimeOption (moviesById : List (Nat × String)) (s : Showtime) : OptionEl :=
  let movieTitle := movieTitleOf moviesById s
  let label := toString s.showtime_id ++ " — " ++ movieTitle ++ " @ " ++ s.start_time ++
    " (Aud " ++ toString s.theater_id ++ ")"
  { value := toString s.showtime_id, textContent := label }

/-- The `catch` block of `loadShowtimesIntoSelect`. -/
def loadShowtimesIntoSelect.fail (message : String) (p : Page) : Page :=
  showGlobalAlert ("Failed to load showtimes: " ++ message) "danger" defaultTimeoutMs p

/-- The part of `loadShowtimesIntoSelect` after the second `await apiGet(...)`. -/
def loadShowtimesIntoSelect.resume (selectId : String) (showtimes : List Showtime)
    (movies : Except String (List Movie)) (p : Page) : Page :=
  match movies with
  | .ok movies =>
    let moviesById := buildMoviesById movies
    let p := p.setSelect selectId [{ value := "", textContent := "Select a showtime..." }]
    showtimes.foldl (fun p s => p.appendOption selectId (showtimeOption moviesById s)) p
  | .error message => loadShowtimesIntoSelect.fail message p

/-- `loadShowtimesIntoSelect(selectId)`: the movies are requested once the
showtimes have arrived. -/
def loadShowtimesIntoSelect (selectId : String)
    (resShowtimes : Except String (Response (List Showtime)))
    (resMovies : Except String (Response (List Movie))) (p : Page) : Page :=
  let (showtimes, p) := apiGet "/showtimes" resShowtimes p
  match showtimes with
  | .ok showtimes =>
    let (movies, p) := apiGet "/movies" resMovies p
    loadShowtimesIntoSelect.resume selectId showtimes movies p
  | .error message => loadShowtimesIntoSelect.fail message p

/-- The option built in the loop of `loadMoviesIntoSelect`. -/
def movieOption (m : Movie) : OptionEl :=
  { value := toString m.movie_id, textContent := toString m.movie_id ++ " — " ++ m.title }

/-- The part of `loadMoviesIntoSelect` after `await apiGet(...)`. -/
def loadMoviesIntoSelect.resume (selectId : String) (movies : Except String (List Movie))
    (p : Page) : Page :=
  match movies with
  | .ok movies =>
    let p := p.setSelect selectId [{ value := "", textContent := "Select a movie..." }]
    movies.foldl (fun p m => p.appendOption selectId (movieOption m)) p
  | .error message =>
    showGlobalAlert ("Failed to load movies for dropdown: " ++ message) "danger"
      defaultTimeoutMs p

/-- `loadMoviesIntoSelect(selectId)`. -/
def loadMoviesIntoSelect (selectId : String) (res : Except String (Response (List Movie)))
    (p : Page) : Page :=
  let (movies, p) := apiGet "/movies" res p
  loadMoviesIntoSelect.resume selectId movies p

/-! ## Customer ticket history -/

/-- The row built in the loop of the customer-history handler. -/
def historyRow (row : HistoryRow) : TableRow :=
  .tr ("\n          <td>" ++ toString row.ticket_sale_id ++ "</td>\n          <td>" ++
    row.movie_title ++ "</td>\n          <td>" ++ toString row.showtime_id ++
    "</td>\n          <td>$" ++ row.ticket_price.toFixed2 ++ "</td>\n        ")

/-- The `change` handler of `select-history-customer`, for the value of the
control and the outcome of the request. -/
def historyChange (customerId : String) (res : Except String (Response (List HistoryRow)))
    (p : Page) : Page :=
  let p := p.setTbody "table-customer-history" []
  if customerId = "" then p
  else
    let (history, p) := apiGet ("/tickets/customers/" ++ customerId ++ "/tickets") res p
    match history with
    | .ok history =>
      if history.length = 0 then
        p.setTbody "table-customer-history"
          [.placeholder 4 "text-muted" "No tickets for this customer."]
      else
        history.foldl (fun p row => p.appendRow "table-customer-history" (historyRow row)) p
    | .error message =>
      showGlobalAlert ("Failed to load customer ticket history: " ++ message) "danger"
        defaultTimeoutMs p

/-! ## Navigation -/

/-- `classList.add(token)`. -/
def classListAdd (classList : List String) (token : String) : List String :=
  if token ∈ classList then classList else classList ++ [token]

/-- `classList.remove(token)`. -/
def classListRemove (classList : List String) (token : String) : List String :=
  classList.filter (fun t => t ≠ token)

/-- A `.nav-link` of `#nav-sections`: its `data-section` attribute (`none`
when absent) and its classes. -/
structure NavLink where
  dataSection : Option String
  classList : List String
  deriving DecidableEq, Repr

/-- An `.app-section`: its id and its classes. -/
structure Section where
  id : String
  classList : List String
  deriving DecidableEq, Repr

/-- The nodes captured by `initNavigation`. -/
structure NavState where
  links : List NavLink
  sections : List Section
  deriving DecidableEq, Repr

/-- The `click` handler that `initNavigation` attaches to the link at position
`k` of `links`. -/
def navClick (k : Nat) (st : NavState) : NavState :=
  match st.links[k]? with
  | none => st
  | some link =>
    let targetId := link.dataSection
    let links := st.links.map (fun l => { l with classList := classListRemove l.classList "active" })
    let links := links.modify (fun l => { l with classList := classListAdd l.classList "active" }) k
    let sections := st.sections.map (fun sec =>
      if some sec.id = targetId then { sec with classList := classListAdd sec.classList "active" }
      else { sec with classList := classListRemove sec.classList "active" })
    { links := links, sections := sections }

/-! ## Reports section -/

/-- The UTF-8 code units of a code point. -/
def utf8Bytes (c : Char) : List Nat :=
  let n := c.toNat
  if n < 0x80 then [n]
  else if n < 0x800 then [0xC0 + n / 64, 0x80 + n % 64]
  else if n < 0x10000 then [0xE0 + n / 4096, 0x80 + n / 64 % 64, 0x80 + n % 64]
  else [0xF0 + n / 262144, 0x80 + n / 4096 % 64, 0x80 + n / 64 % 64, 0x80 + n % 64]

/-- The characters `encodeURIComponent` leaves as they are: ASCII letters and
digits and `- _ . ! ~ * ' ( )`. -/
def isUriUnreserved (c : Char) : Bool :=
  c.isAlphanum || c ∈ ['-', '_', '.', '!', '~', '*', Char.ofNat 39, '(', ')']

/-- A hexadecimal digit, upper case. -/
def hexDigitUpper (n : Nat) : Char :=
  if n < 10 then Char.ofNat (48 + n) else Char.ofNat (55 + n)

/-- `encodeURIComponent(s)`. -/
def encodeURIComponent (s : String) : String :=
  String.mk (s.data.flatMap fun c =>
    if isUriUnreserved c then [c]
    else (utf8Bytes c).flatMap fun b => ['%', hexDigitUpper (b / 16), hexDigitUpper (b % 16)])

/-- A row of `/reports/movie-showtimes`. -/
structure MovieShowtimeRow where
  title : String
  showtime_id : Nat
  theater_id : Nat
  start_time : String
  end_time : String
  deriving DecidableEq, Repr

/-- The body of `/reports/showtime-availability`. -/
structure Availability where
  showtime_id : Nat
  seat_capacity : Nat
  tickets_sold : Nat
  seats_remaining : Int
  deriving DecidableEq, Repr

/-- A row of `/reports/concessions/top-categories`. -/
structure CategoryRevenue where
  category : String
  total_revenue : JsNumber
  deriving DecidableEq, Repr

/-- The body of `/reports/movie-lifetime-sales`. -/
structure LifetimeSales where
  title : String
  movie_id : Nat
  lifetime_ticket_sales : Nat
  deriving DecidableEq, Repr

/-- A row of `/reports/upcoming-showtimes`. -/
structure UpcomingShowtime where
  showtime_id : Nat
  movie_title : String
  theater_id : Nat
  start_time : String
  dynamic_status : String
  deriving DecidableEq, Repr

/-- The body of `/reports/daily-ticket-sales`. -/
structure DailySales where
  report_date : String
  tickets_sold : Nat
  deriving DecidableEq, Repr

/-- The body of `/reports/movies/{id}/profit`. -/
structure MovieProfit where
  title : String
  movie_id : Nat
  net_profit : JsNumber
  deriving DecidableEq, Repr

/-- The row built in the loop of the Query 1 handler. -/
def reportQ1Row (row : MovieShowtimeRow) : TableRow :=
  .tr ("\n          <td>" ++ row.title ++ "</td>\n          <td>" ++ toString row.showtime_id ++
    "</td>\n          <td>" ++ toString row.theater_id ++ "</td>\n          <td>" ++
    row.start_time ++ "</td>\n          <td>" ++ row.end_time ++ "</td>\n        ")

/-- The submit handler of `form-report-movie-showtimes` (Query 1), for the
values of the title and date inputs. -/
def reportQ1Submit (titleInput date : String)
    (res : Except String (Response (List MovieShowtimeRow))) (p : Page) : Page :=
  let title := jsTrim titleInput
  let p := p.setTbody "table-report-q1" []
  if title = "" ∨ date = "" then p
  else
    let (data, p) := apiGet ("/reports/movie-showtimes?title=" ++ encodeURIComponent title ++
      "&date=" ++ encodeURIComponent date) res p
    match data with
    | .ok data =>
      if data.length = 0 then
        p.setTbody "table-report-q1" [.placeholder 5 "text-muted" "No showtimes found."]
      else
        data.foldl (fun p row => p.appendRow "table-report-q1" (reportQ1Row row)) p
    | .error message =>
      showGlobalAlert ("Query 1 failed: " ++ message) "danger" defaultTimeoutMs p

/-- The result panel of Query 2. -/
def reportQ2Panel (data : Availability) : String :=
  "\n        <div class=\"alert alert-success mb-0\" role=\"alert\">\n          " ++
    "<div><strong>Showtime:</strong> " ++ toString data.showtime_id ++ "</div>\n          " ++
    "<div><strong>Capacity:</strong> " ++ toString data.seat_capacity ++ "</div>\n          " ++
    "<div><strong>Tickets Sold:</strong> " ++ toString data.tickets_sold ++ "</div>\n          " ++
    "<div><strong>Seats Remaining:</strong> " ++ toString data.seats_remaining ++
    "</div>\n        </div>\n      "

/-- The submit handler of `form-report-showtime-availability` (Query 2). -/
def reportQ2Submit (showtimeId : String) (res : Except String (Response Availability))
    (p : Page) : Page :=
  let p := p.setDiv "report-q2-result" ""
  if showtimeId = "" then p
  else
    let (data, p) := apiGet ("/reports/showtime-availability?showtime_id=" ++
      encodeURIComponent showtimeId) res p
    match data with
    | .ok data => p.setDiv "report-q2-result" (reportQ2Panel data)
    | .error message =>
      showGlobalAlert ("Query 2 failed: " ++ message) "danger" defaultTimeoutMs p

/-- The row built in the loop of the Query 3 handler. -/
def reportQ3Row (row : CategoryRevenue) : TableRow :=
  .tr ("\n          <td>" ++ row.category ++ "</td>\n          <td>$" ++
    row.total_revenue.toFixed2 ++ "</td>\n        ")

/-- The submit handler of `form-report-concession-revenue` (Query 3). -/
def reportQ3Submit (limitVal : String) (res : Except String (Response (List CategoryRevenue)))
    (p : Page) : Page :=
  let p := p.setTbody "table-report-q3" []
  let url := "/reports/concessions/top-categories"
  let url := if limitVal ≠ "" then url ++ ("?limit=" ++ encodeURIComponent limitVal) else url
  let (data, p) := apiGet url res p
  match data with
  | .ok data =>
    if data.length = 0 then
      p.setTbody "table-report-q3" [.placeholder 2 "text-muted" "No concession sales found."]
    else
      data.foldl (fun p row => p.appendRow "table-report-q3" (reportQ3Row row)) p
  | .error message =>
    showGlobalAlert ("Query 3 failed: " ++ message) "danger" defaultTimeoutMs p

/-- The result panel of Query 4. -/
def reportQ4Panel (data : LifetimeSales) : String :=
  "\n        <div class=\"alert alert-info mb-0\" role=\"alert\">\n          " ++
    "<div><strong>Movie:</strong> " ++ data.title ++ " (ID " ++ toString data.movie_id ++
    ")</div>\n          <div><strong>Lifetime Ticket Sales:</strong> " ++
    toString data.lifetime_ticket_sales ++ "</div>\n        </div>\n      "

/-- The submit handler of `form-report-movie-lifetime` (Query 4). -/
def reportQ4Submit (movieId : String) (res : Except String (Response LifetimeSales))
    (p : Page) : Page :=
  let p := p.setDiv "report-q4-result" ""
  if movieId = "" then p
  else
    let (data, p) := apiGet ("/reports/movie-lifetime-sales?movie_id=" ++
      encodeURIComponent movieId) res p
    match data with
    | .ok data => p.setDiv "report-q4-result" (reportQ4Panel data)
    | .error message =>
      showGlobalAlert ("Query 4 failed: " ++ message) "danger" defaultTimeoutMs p

/-- The row built in the loop of the Query 5 handler. -/
def reportQ5Row (row : UpcomingShowtime) : TableRow :=
  .tr ("\n          <td>" ++ toString row.showtime_id ++ "</td>\n          <td>" ++
    row.movie_title ++ "</td>\n          <td>" ++ toString row.theater_id ++
    "</td>\n          <td>" ++ row.start_time ++ "</td>\n          <td>" ++
    row.dynamic_status ++ "</td>\n        ")

/-- The submit handler of `form-report-upcoming-showtimes` (Query 5). -/
def reportQ5Submit (days : String) (res : Except String (Response (List UpcomingShowtime)))
    (p : Page) : Page :=
  let p := p.setTbody "table-report-q5" []
  let url := "/reports/upcoming-showtimes"
  let url := if days ≠ "" then url ++ ("?days_ahead=" ++ encodeURIComponent days) else url
  let (data, p) := apiGet url res p
  match data with
  | .ok data =>
    if data.length = 0 then
      p.setTbody "table-report-q5" [.placeholder 5 "text-muted" "No upcoming showtimes found."]
    else
      data.foldl (fun p row => p.appendRow "table-report-q5" (reportQ5Row row)) p
  | .error message =>
    showGlobalAlert ("Query 5 failed: " ++ message) "danger" defaultTimeoutMs p

/-- The result panel of the daily-sales report. -/
def reportDailyPanel (data : DailySales) : String :=
  "\n        <div class=\"alert alert-dark mb-0\" role=\"alert\">\n          " ++
    "<div><strong>Date:</strong> " ++ data.report_date ++ "</div>\n          " ++
    "<div><strong>Ticket Sales:</strong> " ++ toString data.tickets_sold ++
    "</div>\n        </div>\n      "

/-- The submit handler of `form-report-daily-sales`. -/
def reportDailySubmit (dateVal : String) (res : Except String (Response DailySales))
    (p : Page) : Page :=
  let p := p.setDiv "report-daily-result" ""
  if dateVal = "" then p
  else
    let (data, p) := apiGet ("/reports/daily-ticket-sales?date=" ++ encodeURIComponent dateVal)
      res p
    match data with
    | .ok data => p.setDiv "report-daily-result" (reportDailyPanel data)
    | .error message =>
      showGlobalAlert ("Daily ticket sales query failed: " ++ message) "danger"
        defaultTimeoutMs p

/-- The result panel of the movie-profit report. -/
def reportProfitPanel (data : MovieProfit) : String :=
  "\n        <div class=\"alert alert-dark mb-0\" role=\"alert\">\n          " ++
    "<div><strong>Movie:</strong> " ++ data.title ++ " (ID " ++ toString data.movie_id ++
    ")</div>\n          <div><strong>Net Profit:</strong> $" ++ data.net_profit.toFixed2 ++
    "</div>\n        </div>\n      "

/-- The submit handler of `form-report-movie-profit`. -/
def reportProfitSubmit (movieId : String) (res : Except String (Response MovieProfit))
    (p : Page) : Page :=
  let p := p.setDiv "report-profit-result" ""
  if movieId = "" then p
  else
    let (data, p) := apiGet ("/reports/movies/" ++ encodeURIComponent movieId ++ "/profit") res p
    match data with
    | .ok data => p.setDiv "report-profit-result" (reportProfitPanel data)
    | .error message =>
      showGlobalAlert ("Movie profit query failed: " ++ message) "danger" defaultTimeoutMs p

/-! ## Initialization -/

/-- The nine loader calls that `initApp` passes to `Promise.all`, in call order. -/
inductive InitTask where
  | nowPlaying
  | upcoming
  | allMovies
  | customers
  | historyCustomers
  | showtimes
  | q2Showtimes
  | q4Movies
  | profitMovies
  deriving DecidableEq, Repr

/-- The calls of `Promise.all([...])`, in order. -/
def initTasks : List InitTask :=
  [.nowPlaying, .upcoming, .allMovies, .customers, .historyCustomers, .showtimes, .q2Showtimes,
   .q4Movies, .profitMovies]

/-- How each fetch of the page load settles: one outcome per `apiGet` call of
the nine loaders (two for a showtime populator) and one for the unawaited
`loadTicketsToday()`. -/
structure InitOutcomes where
  nowPlaying : Except String (Response (List Movie))
  upcoming : Except String (Response (List Movie))
  allMovies : Except String (Response (List Movie))
  customers : Except String (Response (List Customer))
  historyCustomers : Except String (Response (List Customer))
  showtimes : Except String (Response (List Showtime))
  showtimesMovies : Except String (Response (List Movie))
  q2Showtimes : Except String (Response (List Showtime))
  q2ShowtimesMovies : Except String (Response (List Movie))
  q4Movies : Except String (Response (List Movie))
  profitMovies : Except String (Response (List Movie))
  ticketsToday : Except String (Response (List TicketSale))

/-- Where a running loader stands: suspended at its first `await`, suspended at
the second `await` of a showtime populator (holding the showtimes), or
returned. -/
inductive TaskState where
  | awaiting
  | awaitingMovies (showtimes : List Showtime)
  | settled
  deriving DecidableEq, Repr

/-- The page and the nine loaders while `Promise.all` is pending. -/
structure Boot where
  page : Page
  state : InitTask → TaskState

/-- The pending fetch of loader `t` settles and the loader runs up to its next
`await` or to its end. All writes of a loader happen in this one block, after
its last `await`. -/
def settleTask (o : InitOutcomes) (t : InitTask) (s : TaskState) (p : Page) : TaskState × Page :=
  match s with
  | .settled => (.settled, p)
  | .awaitingMovies showtimes =>
    match t with
    | .showtimes =>
      (.settled, loadShowtimesIntoSelect.resume "select-showtime" showtimes
        (apiGet.settle "/movies" o.showtimesMovies) p)
    | .q2Showtimes =>
      (.settled, loadShowtimesIntoSelect.resume "report-q2-showtime-id" showtimes
        (apiGet.settle "/movies" o.q2ShowtimesMovies) p)
    | _ => (.settled, p)
  | .awaiting =>
    match t with
    | .nowPlaying =>
      (.settled, loadNowPlaying.resume (apiGet.settle "/movies/now-playing" o.nowPlaying) p)
    | .upcoming =>
      (.settled, loadUpcomingMovies.resume (apiGet.settle "/movies/upcoming" o.upcoming) p)
    | .allMovies => (.settled, loadAllMovies.resume (apiGet.settle "/movies" o.allMovies) p)
    | .customers =>
      (.settled, loadCustomersIntoSelect.resume "select-customer"
        (apiGet.settle "/customers" o.customers) p)
    | .historyCustomers =>
      (.settled, loadCustomersIntoSelect.resume "select-history-customer"
        (apiGet.settle "/customers" o.historyCustomers) p)
    | .showtimes =>
      match apiGet.settle "/showtimes" o.showtimes with
      | .ok showtimes => (.awaitingMovies showtimes, apiGet.request "/movies" p)
      | .error message => (.settled, loadShowtimesIntoSelect.fail message p)
    | .q2Showtimes =>
      match apiGet.settle "/showtimes" o.q2Showtimes with
      | .ok showtimes => (.awaitingMovies showtimes, apiGet.request "/movies" p)
      | .error message => (.settled, loadShowtimesIntoSelect.fail message p)
    | .q4Movies =>
      (.settled, loadMoviesIntoSelect.resume "report-q4-movie-id"
        (apiGet.settle "/movies" o.q4Movies) p)
    | .profitMovies =>
      (.settled, loadMoviesIntoSelect.resume "report-profit-movie-id"
        (apiGet.settle "/movies" o.profitMovies) p)

/-- One step of the event loop while `Promise.all` is pending: the fetch that
loader `t` waits for settles. -/
def Boot.step (o : InitOutcomes) (b : Boot) (t : InitTask) : Boot :=
  { page := (settleTask o t (b.state t) b.page).2,
    state := fun k => if k = t then (settleTask o t (b.state t) b.page).1 else b.state k }

/-- The page once the nine loaders have been called: each has issued its first
request and is suspended. (The `init...` functions before them only attach
listeners.) -/
def initApp.start (p : Page) : Boot :=
  { page := apiGet.request "/movies" (apiGet.request "/movies" (apiGet.request "/showtimes"
      (apiGet.request "/showtimes" (apiGet.request "/customers" (apiGet.request "/customers"
      (apiGet.request "/movies" (apiGet.request "/movies/upcoming"
      (apiGet.request "/movies/now-playing" p)))))))),
    state := fun _ => .awaiting }

/-- `initApp()`. The fetches settle in the order `schedule` (any list: a loader
named more often than it has pending fetches is skipped, and what is still
pending at the end of the list settles in call order). Every loader catches
inside its own body, so each of the nine promises fulfils and so does
`Promise.all`; then `loadTicketsToday()` is called and not awaited. The result
is how the promise of `initApp` settles and the page at that moment. -/
def initApp (o : InitOutcomes) (schedule : List InitTask) (p : Page) : Except String Unit × Page :=
  let b := schedule.foldl (Boot.step o) (initApp.start p)
  let b := (initTasks ++ initTasks).foldl (Boot.step o) b
  (.ok (), apiGet.request "/tickets/today" b.page)

/-- The `DOMContentLoaded` listener, up to the moment the unawaited load of
today's tickets has settled too. -/
def onDOMContentLoaded (o : InitOutcomes) (schedule : List InitTask) (p : Page) : Page :=
  match initApp o schedule p with
  | (.ok _, p) => loadTicketsToday.resume (apiGet.settle "/tickets/today" o.ticketsToday) p
  | (.error message, p) =>
    showGlobalAlert ("Failed to initialize app: " ++ message) "danger" 0 p

/-- A page load in which the fetch of `/movies/now-playing` is refused by the
network and every other fetch returns an empty list. -/
def refusedNowPlaying : InitOutcomes :=
  { nowPlaying := .error "Failed to fetch",
    upcoming := .ok (Response.mk true 200 "[]" (.ok [])),
    allMovies := .ok (Response.mk true 200 "[]" (.ok [])),
    customers := .ok (Response.mk true 200 "[]" (.ok [])),
    historyCustomers := .ok (Response.mk true 200 "[]" (.ok [])),
    showtimes := .ok (Response.mk true 200 "[]" (.ok [])),
    showtimesMovies := .ok (Response.mk true 200 "[]" (.ok [])),
    q2Showtimes := .ok (Response.mk true 200 "[]" (.ok [])),
    q2ShowtimesMovies := .ok (Response.mk true 200 "[]" (.ok [])),
    q4Movies := .ok (Response.mk true 200 "[]" (.ok [])),
    profitMovies := .ok (Response.mk true 200 "[]" (.ok [])),
    ticketsToday := .ok (Response.mk true 200 "[]" (.ok [])) }

/-! ## Statements about listings -/

/-- What a listing table shows for `records`: the placeholder row alone when
there is none, else one row per record, the `i`-th being the rendering of the
`i`-th record. -/
def RendersListing {α : Type} (render : α → TableRow) (colspan : Nat) (message : String)
    (records : List α) (rows : List TableRow) : Prop :=
  (records = [] → rows = [.placeholder colspan "text-muted" message]) ∧
  (records ≠ [] → rows.length = records.length ∧
    ∀ (i : Nat) (h : i < records.length), rows[i]? = some (render (records.get ⟨i, h⟩)))

/-- A fetch that settled with a success status and a body that parsed to `a`. -/
def fetched {α : Type} (status : Nat) (text : String) (a : α) : Except String (Response α) :=
  .ok { ok := true, status := status, text := text, json := .ok a }

/-- What a select control shows for `records`: the placeholder option with the
empty value first, then one option per record, the option after position `i`
being the one rendered from the `i`-th record, with its identifier as value. -/
def PopulatesSelect {α : Type} (render : α → OptionEl) (ident : α → Nat) (placeholder : String)
    (records : List α) (options : List OptionEl) : Prop :=
  options.length = records.length + 1 ∧
  options[0]? = some { value := "", textContent := placeholder } ∧
  ∀ (i : Nat) (h : i < records.length),
    options[i + 1]? = some (render (records.get ⟨i, h⟩)) ∧
    (render (records.get ⟨i, h⟩)).value = toString (ident (records.get ⟨i, h⟩))

/-- The rows a listing table holds for `records`. -/
def listingRows {α : Type} (render : α → TableRow) (colspan : Nat) (message : String)
    (records : List α) : List TableRow :=
  if records.length = 0 then [.placeholder colspan "text-muted" message] else records.map render

/-- The options a select control holds for `records`. -/
def selectOptions {α : Type} (render : α → OptionEl) (placeholder : String) (records : List α) :
    List OptionEl :=
  { value := "", textContent := placeholder } :: records.map render

/-- What a listing loader has done on page `p`, given how its fetch settled:
rendered its table, or raised its own alert. -/
def ListingOutcome {α : Type} (render : α → TableRow) (colspan : Nat) (message : String)
    (failure : String) (id : String) (r : Except String (List α)) (p : Page) : Prop :=
  match r with
  | .ok records => p.tbody id = listingRows render colspan message records
  | .error m => Alert.mk (failure ++ m) "danger" 4000 ∈ p.alerts

/-- What a dropdown populator has done on page `p`, given how its fetch
settled: filled its select, or raised its own alert. -/
def SelectOutcome {α : Type} (render : α → OptionEl) (placeholder : String) (failure : String)
    (id : String) (r : Except String (List α)) (p : Page) : Prop :=
  match r with
  | .ok records => p.select id = selectOptions render placeholder records
  | .error m => Alert.mk (failure ++ m) "danger" 4000 ∈ p.alerts

/-- What a showtime populator has done on page `p`, given how its two fetches
settled: filled its select when both succeeded, else raised its own alert. -/
def ShowtimeOutcome (id : String) (showtimes : Except String (List Showtime))
    (movies : Except String (List Movie)) (p : Page) : Prop :=
  match showtimes, movies with
  | .ok showtimes, .ok movies =>
    p.select id =
      selectOptions (showtimeOption (buildMoviesById movies)) "Select a showtime..." showtimes
  | .ok _, .error m => Alert.mk ("Failed to load showtimes: " ++ m) "danger" 4000 ∈ p.alerts
  | .error m, _ => Alert.mk ("Failed to load showtimes: " ++ m) "danger" 4000 ∈ p.alerts

/-- What loader `t` of the page load has done on page `p`. -/
def LoaderOutcome (o : InitOutcomes) (t : InitTask) (p : Page) : Prop :=
  match t with
  | .nowPlaying =>
    ListingOutcome nowPlayingRow 3 "No active movies." "Failed to load now playing movies: "
      "table-now-playing" (apiGet.settle "/movies/now-playing" o.nowPlaying) p
  | .upcoming =>
    ListingOutcome upcomingRow 3 "No upcoming movies." "Failed to load upcoming movies: "
      "table-upcoming" (apiGet.settle "/movies/upcoming" o.upcoming) p
  | .allMovies =>
    ListingOutcome allMoviesRow 3 "No movies found." "Failed to load all movies: "
      "table-all-movies" (apiGet.settle "/movies" o.allMovies) p
  | .customers =>
    SelectOutcome customerOption "Select a customer..." "Failed to load customers: "
      "select-customer" (apiGet.settle "/customers" o.customers) p
  | .historyCustomers =>
    SelectOutcome customerOption "Select a customer..." "Failed to load customers: "
      "select-history-customer" (apiGet.settle "/customers" o.historyCustomers) p
  | .showtimes =>
    ShowtimeOutcome "select-showtime" (apiGet.settle "/showtimes" o.showtimes)
      (apiGet.settle "/movies" o.showtimesMovies) p
  | .q2Showtimes =>
    ShowtimeOutcome "report-q2-showtime-id" (apiGet.settle "/showtimes" o.q2Showtimes)
      (apiGet.settle "/movies" o.q2ShowtimesMovies) p
  | .q4Movies =>
    SelectOutcome movieOption "Select a movie..." "Failed to load movies for dropdown: "
      "report-q4-movie-id" (apiGet.settle "/movies" o.q4Movies) p
  | .profitMovies =>
    SelectOutcome movieOption "Select a movie..." "Failed to load movies for dropdown: "
      "report-profit-movie-id" (apiGet.settle "/movies" o.profitMovies) p

/-- The number of fetches a loader in state `s` may still wait for. -/
def TaskState.rank : TaskState → Nat
  | .awaiting => 2
  | .awaitingMovies _ => 1
  | .settled => 0

/-- The region that loader `t` writes: a table body (`true`) or a select
(`false`), and its id. -/
def regionOf : InitTask → Bool × String
  | .nowPlaying => (true, "table-now-playing")
  | .upcoming => (true, "table-upcoming")
  | .allMovies => (true, "table-all-movies")
  | .customers => (false, "select-customer")
  | .historyCustomers => (false, "select-history-customer")
  | .showtimes => (false, "select-showtime")
  | .q2Showtimes => (false, "report-q2-showtime-id")
  | .q4Movies => (false, "report-q4-movie-id")
  | .profitMovies => (false, "report-profit-movie-id")

/-- Page `q` differs from `p` at most in the region of loader `t`, in the
request log and in alerts of severity `danger` with the default duration
appended to the container. -/
def Frame (t : InitTask) (p q : Page) : Prop :=
  (∀ k, (true, k) ≠ regionOf t → q.tbody k = p.tbody k) ∧
  (∀ k, (false, k) ≠ regionOf t → q.select k = p.select k) ∧
  ∃ extra, q.alerts = p.alerts ++ extra ∧ ∀ a ∈ extra, a.type = "danger" ∧ a.timeoutMs = 4000

/-- What is known of loader `t` in state `s` on page `p` during the page load. -/
def TaskInv (o : InitOutcomes) (t : InitTask) (s : TaskState) (p : Page) : Prop :=
  match s with
  | .awaiting => True
  | .awaitingMovies showtimes =>
    (t = .showtimes ∧ apiGet.settle "/showtimes" o.showtimes = .ok showtimes) ∨
    (t = .q2Showtimes ∧ apiGet.settle "/showtimes" o.q2Showtimes = .ok showtimes)
  | .settled => LoaderOutcome o t p

/-- Loader `load`, run on the fetched `records` and a page, makes table body
`id` the function `rows` of the records alone: whatever the page held before,
the body is `rows records`; two runs from different pages agree; and a second
run on the same records leaves the body as the first run left it. -/
def RegionIsProjection {α : Type} (load : List α → Page → Page) (id : String)
    (rows : List α → List TableRow) : Prop :=
  (∀ records p, (load records p).tbody id = rows records) ∧
  (∀ records p p', (load records p).tbody id = (load records p').tbody id) ∧
  (∀ records p, (load records (load records p)).tbody id = (load records p).tbody id)

/-! # Properties -/

/-! ## Appending rows in a loop -/

theorem setTbody_tbody_self (p : Page) (id : String) (rows : List TableRow) :
    (p.setTbody id rows).tbody id = rows := by
  simp [Page.setTbody]

theorem setTbody_setTbody (p : Page) (id : String) (r₁ r₂ : List TableRow) :
    (p.setTbody id r₁).setTbody id r₂ = p.setTbody id r₂ := by
  simp only [Page.setTbody, Page.mk.injEq, and_self, and_true]
  funext k
  split <;> rfl

theorem foldl_appendRow {α : Type} (id : String) (f : α → TableRow) (xs : List α) (p : Page) :
    xs.foldl (fun p x => p.appendRow id (f x)) p = p.setTbody id (p.tbody id ++ xs.map f) := by
  induction xs generalizing p with
  | nil =>
    simp only [List.foldl_nil, List.map_nil, List.append_nil, Page.setTbody]
    have h : (fun k => if k = id then p.tbody id else p.tbody k) = p.tbody := by
      funext k
      split
      · next hk => rw [hk]
      · rfl
    rw [h]
  | cons x xs ih =>
    simp only [List.foldl_cons, List.map_cons]
    rw [ih, Page.appendRow, setTbody_setTbody, setTbody_tbody_self, List.append_assoc]
    rfl

theorem rendersListing_of_eq {α : Type} (render : α → TableRow) (colspan : Nat)
    (message : String) (records : List α) (rows : List TableRow)
    (h : rows = if records.length = 0 then [.placeholder colspan "text-muted" message]
      else records.map render) :
    RendersListing render colspan message records rows := by
  subst h
  constructor
  · intro h0
    simp [h0]
  · intro hne
    have hlen : records.length ≠ 0 := by
      intro h0
      exact hne (List.length_eq_zero.mp h0)
    simp only [hlen, if_false, List.length_map, true_and]
    intro i hi
    simp [List.getElem?_eq_getElem hi]

theorem settle_fetched {α : Type} (path : String) (status : Nat) (text : String) (a : α) :
    apiGet.settle path (fetched status text a) = .ok a := by
  simp [apiGet.settle, fetched]

theorem tbody_listing (p : Page) (id : String) {α : Type} (render : α → TableRow)
    (ph : TableRow) (records : List α) :
    (if records.length = 0 then (p.setTbody id []).setTbody id [ph]
      else records.foldl (fun p x => p.appendRow id (render x)) (p.setTbody id [])).tbody id =
    if records.length = 0 then [ph] else records.map render := by
  split
  · simp [setTbody_tbody_self]
  · simp [foldl_appendRow, setTbody_setTbody, setTbody_tbody_self]

/-! ## C1 -/

theorem rows_of_rendersListing_singleton {α : Type} (render : α → TableRow) (colspan : Nat)
    (message : String) (a : α) (rows : List TableRow)
    (h : RendersListing render colspan message [a] rows) : rows = [render a] := by
  obtain ⟨hlen, hget⟩ := h.2 (by simp)
  have h0 := hget 0 (by simp)
  match rows, hlen, h0 with
  | [r], _, h0 =>
    simp only [List.getElem?_cons_zero, Option.some.injEq] at h0
    rw [h0]
    rfl

/-- C1: each listing loader, on a successful fetch, leaves in its table body
the placeholder row alone (its message, its column span 3, 3, 3, 4, 5) when the
result is empty, and otherwise one row per record, the `i`-th row being the
`tr` whose markup is the loader's template filled with the fields of the `i`-th
record. -/
theorem listing_loaders_render (prior : Page) (status : Nat) (text : String)
    (movies : List Movie) (tickets : List TicketSale) :
    RendersListing
      (fun m : Movie => TableRow.tr ("\n        <td>" ++ m.title ++ "</td>\n        <td>" ++
        m.genre ++ "</td>\n        <td>" ++ toString m.runtime ++ " min</td>\n      "))
      3 "No active movies." movies
      ((loadNowPlaying (fetched status text movies) prior).tbody "table-now-playing") ∧
    RendersListing
      (fun m : Movie => TableRow.tr ("\n        <td>" ++ m.title ++ "</td>\n        <td>" ++
        m.genre ++ "</td>\n        <td>" ++ m.release_date ++ "</td>\n      "))
      3 "No upcoming movies." movies
      ((loadUpcomingMovies (fetched status text movies) prior).tbody "table-upcoming") ∧
    RendersListing
      (fun m : Movie => TableRow.tr ("\n        <td>" ++ m.title ++ "</td>\n        <td>" ++
        m.genre ++ "</td>\n        <td>" ++
        (if m.is_active then "<span class=\"badge bg-success\">Yes</span>"
          else "<span class=\"badge bg-secondary\">No</span>") ++ "</td>\n      "))
      3 "No movies found." movies
      ((loadAllMovies (fetched status text movies) prior).tbody "table-all-movies") ∧
    RendersListing
      (fun t : TicketSale => TableRow.tr ("\n        <td>" ++ toString t.ticket_sale_id ++
        "</td>\n        <td>" ++ toString t.customer_id ++ "</td>\n        <td>" ++
        toString t.showtime_id ++ "</td>\n        <td>$" ++ t.ticket_price.toFixed2 ++
        "</td>\n      "))
      4 "No tickets sold today." tickets
      ((loadTicketsToday (fetched status text tickets) prior).tbody "table-tickets-today") ∧
    RendersListing
      (fun t : TicketSale => TableRow.tr ("\n        <td>" ++ toString t.ticket_sale_id ++
        "</td>\n        <td>" ++ toString t.customer_id ++ "</td>\n        <td>" ++
        toString t.showtime_id ++ "</td>\n        <td>$" ++ t.ticket_price.toFixed2 ++
        "</td>\n        <td>" ++ t.time_ticket_sold ++ "</td>\n      "))
      5 "No tickets found." tickets
      ((loadAllTickets (fetched status text tickets) prior).tbody "table-all-tickets") := by
  refine ⟨?_, ?_, ?_, ?_, ?_⟩ <;> apply rendersListing_of_eq
  · simp only [loadNowPlaying, apiGet, settle_fetched, loadNowPlaying.resume]
    exact tbody_listing _ _ nowPlayingRow _ _
  · simp only [loadUpcomingMovies, apiGet, settle_fetched, loadUpcomingMovies.resume]
    exact tbody_listing _ _ upcomingRow _ _
  · simp only [loadAllMovies, apiGet, settle_fetched, loadAllMovies.resume]
    exact tbody_listing _ _ allMoviesRow _ _
  · simp only [loadTicketsToday, apiGet, settle_fetched, loadTicketsToday.resume]
    exact tbody_listing _ _ ticketsTodayRow _ _
  · simp only [loadAllTickets, apiGet, settle_fetched, loadAllTickets.resume]
    exact tbody_listing _ _ allTicketsRow _ _

/-- The five listing loaders at one record each over a stale table, and
`loadAllTickets` at no ticket: the markup of every row, character by
character. -/
theorem listing_loaders_render_witness :
    (loadNowPlaying (fetched 200 "" [⟨7, "Heat", "Crime", 170, "1995-12-15", true⟩])
        (Page.empty.setTbody "table-now-playing" [.tr "<td>stale</td>"])).tbody
        "table-now-playing" =
      [.tr "\n        <td>Heat</td>\n        <td>Crime</td>\n        <td>170 min</td>\n      "] ∧
    (loadUpcomingMovies (fetched 200 "" [⟨8, "Dune", "Sci-Fi", 155, "2031-10-22", false⟩])
        (Page.empty.setTbody "table-upcoming" [.tr "<td>stale</td>"])).tbody "table-upcoming" =
      [.tr "\n        <td>Dune</td>\n        <td>Sci-Fi</td>\n        <td>2031-10-22</td>\n      "] ∧
    (loadAllMovies (fetched 200 "" [⟨8, "Dune", "Sci-Fi", 155, "2031-10-22", false⟩])
        (Page.empty.setTbody "table-all-movies" [.tr "<td>stale</td>"])).tbody
        "table-all-movies" =
      [.tr ("\n        <td>Dune</td>\n        <td>Sci-Fi</td>\n        <td>" ++
        "<span class=\"badge bg-secondary\">No</span></td>\n      ")] ∧
    (loadTicketsToday (fetched 200 "" [⟨11, 4, 2, ⟨false, 25, -1⟩, "2024-05-01T12:00"⟩])
        (Page.empty.setTbody "table-tickets-today" [.tr "<td>stale</td>"])).tbody
        "table-tickets-today" =
      [.tr ("\n        <td>11</td>\n        <td>4</td>\n        <td>2</td>\n        " ++
        "<td>$12.50</td>\n      ")] ∧
    (loadAllTickets (fetched 200 "" [⟨11, 4, 2, ⟨false, 25, -1⟩, "2024-05-01T12:00"⟩])
        (Page.empty.setTbody "table-all-tickets" [.tr "<td>stale</td>"])).tbody
        "table-all-tickets" =
      [.tr ("\n        <td>11</td>\n        <td>4</td>\n        <td>2</td>\n        " ++
        "<td>$12.50</td>\n        <td>2024-05-01T12:00</td>\n      ")] ∧
    (loadAllTickets (fetched 200 "" [])
        (Page.empty.setTbody "table-all-tickets" [.tr "<td>stale</td>"])).tbody
        "table-all-tickets" = [.placeholder 5 "text-muted" "No tickets found."] := by
  refine ⟨?_, ?_, ?_, ?_, ?_, ?_⟩
  · rw [rows_of_rendersListing_singleton _ _ _ _ _
      (listing_loaders_render (Page.empty.setTbody "table-now-playing" [.tr "<td>stale</td>"])
        200 "" [⟨7, "Heat", "Crime", 170, "1995-12-15", true⟩] []).1]
    decide
  · rw [rows_of_rendersListing_singleton _ _ _ _ _
      (listing_loaders_render (Page.empty.setTbody "table-upcoming" [.tr "<td>stale</td>"])
        200 "" [⟨8, "Dune", "Sci-Fi", 155, "2031-10-22", false⟩] []).2.1]
    decide
  · rw [rows_of_rendersListing_singleton _ _ _ _ _
      (listing_loaders_render (Page.empty.setTbody "table-all-movies" [.tr "<td>stale</td>"])
        200 "" [⟨8, "Dune", "Sci-Fi", 155, "2031-10-22", false⟩] []).2.2.1]
    decide
  · rw [rows_of_rendersListing_singleton _ _ _ _ _
      (listing_loaders_render (Page.empty.setTbody "table-tickets-today" [.tr "<td>stale</td>"])
        200 "" [] [⟨11, 4, 2, ⟨false, 25, -1⟩, "2024-05-01T12:00"⟩]).2.2.2.1]
    decide
  · rw [rows_of_rendersListing_singleton _ _ _ _ _
      (listing_loaders_render (Page.empty.setTbody "table-all-tickets" [.tr "<td>stale</td>"])
        200 "" [] [⟨11, 4, 2, ⟨false, 25, -1⟩, "2024-05-01T12:00"⟩]).2.2.2.2]
    decide
  · exact (listing_loaders_render
      (Page.empty.setTbody "table-all-tickets" [.tr "<td>stale</td>"]) 200 "" [] []).2.2.2.2.1 rfl

/-! ## Decimal numerals -/

theorem digitChar_mem (k : Nat) (h : k < 10) :
    Nat.digitChar k ∈ ['0', '1', '2', '3', '4', '5', '6', '7', '8', '9'] ∧
      (Nat.digitChar k).toNat - 48 = k := by
  interval_cases k <;> decide

theorem toDigitsCore_spec (fuel n : Nat) (ds : List Char) (h : n < fuel) :
    ∃ pre, Nat.toDigitsCore 10 fuel n ds = pre ++ ds ∧ pre ≠ [] ∧
      (∀ c ∈ pre, c ∈ ['0', '1', '2', '3', '4', '5', '6', '7', '8', '9']) ∧
      ∀ acc, digitsValue pre acc = acc * 10 ^ pre.length + n := by
  induction fuel generalizing n ds with
  | zero => omega
  | succ fuel ih =>
    have hd := digitChar_mem (n % 10) (Nat.mod_lt _ (by decide))
    rw [Nat.toDigitsCore]
    by_cases h0 : n / 10 = 0
    · refine ⟨[Nat.digitChar (n % 10)], by simp [h0], by simp, ?_, ?_⟩
      · intro c hc
        rw [List.mem_singleton] at hc
        rw [hc]
        exact hd.1
      · intro acc
        simp only [digitsValue, List.foldl_cons, List.foldl_nil, List.length_singleton, pow_one,
          hd.2]
        omega
    · obtain ⟨pre, hpre, _, hall, hval⟩ :=
        ih (n / 10) (Nat.digitChar (n % 10) :: ds) (by omega)
      refine ⟨pre ++ [Nat.digitChar (n % 10)], by simp [h0, hpre], by simp, ?_, ?_⟩
      · intro c hc
        rcases List.mem_append.mp hc with hc | hc
        · exact hall c hc
        · rw [List.mem_singleton] at hc
          rw [hc]
          exact hd.1
      · intro acc
        have hv := hval acc
        simp only [digitsValue] at hv
        simp only [digitsValue, List.foldl_append, List.foldl_cons, List.foldl_nil, hv, hd.2,
          List.length_append, List.length_singleton, pow_succ]
        have := Nat.div_add_mod n 10
        nlinarith [Nat.div_add_mod n 10]

theorem decimal_char_props (c : Char)
    (h : c ∈ ['0', '1', '2', '3', '4', '5', '6', '7', '8', '9']) :
    c.isDigit = true ∧ isJsWhiteSpace c = false ∧ c ≠ '-' ∧ c ≠ '+' := by
  simp only [List.mem_cons, List.mem_singleton, List.not_mem_nil, or_false] at h
  rcases h with h | h | h | h | h | h | h | h | h | h <;> subst h <;> decide

/-- `parseInt` reads back the decimal numeral of a natural. -/
theorem parseInt_toString (n : Nat) : parseInt (toString n) = some (Int.ofNat n) := by
  obtain ⟨pre, hpre, hne, hall, hval⟩ := toDigitsCore_spec (n + 1) n [] (Nat.lt_succ_self n)
  have hdata : (toString n).data = pre := by
    show (Nat.repr n).data = pre
    simp [Nat.repr, Nat.toDigits, hpre, List.asString]
  obtain ⟨c, rest, rfl⟩ := List.exists_cons_of_ne_nil hne
  have hc := decimal_char_props c (hall c (List.mem_cons_self _ _))
  have htake : List.takeWhile Char.isDigit (c :: rest) = c :: rest := by
    rw [List.takeWhile_eq_self_iff]
    intro x hx
    exact (decimal_char_props x (hall x hx)).1
  have hv := hval 0
  simp only [zero_mul, zero_add] at hv
  simp only [parseInt, hdata, List.dropWhile_cons, hc.2.1, Bool.false_eq_true, if_false,
    List.head?_cons, Option.some.injEq, hc.2.2.1, hc.2.2.2, or_self, htake, List.isEmpty_cons, hv,
    one_mul]

/-! ## C2 -/

/-- C2: when the customer value or the showtime value is empty, the purchase
handler issues no request and raises exactly one alert, of severity
`warning`. -/
theorem purchase_empty_field_blocks (customerId showtimeId : String)
    (res : Except String (Response Json)) (prior : Page)
    (h : customerId = "" ∨ showtimeId = "") :
    (purchaseSubmit customerId showtimeId res prior).requests = prior.requests ∧
    (purchaseSubmit customerId showtimeId res prior).alerts = prior.alerts ++
      [{ message := "Please select both customer and showtime.", type := "warning",
         timeoutMs := 4000 }] := by
  simp [purchaseSubmit, h, showGlobalAlert, Page.setDiv, defaultTimeoutMs]

/-- The purchase handler with a customer chosen and no showtime. -/
theorem purchase_empty_field_blocks_witness :
    (purchaseSubmit "12" "" (fetched 200 "" (.obj [("message", .str "sold")])) Page.empty).requests
      = [] ∧
    (purchaseSubmit "12" "" (fetched 200 "" (.obj [("message", .str "sold")])) Page.empty).alerts
      = [{ message := "Please select both customer and showtime.", type := "warning",
           timeoutMs := 4000 }] :=
  purchase_empty_field_blocks "12" "" (fetched 200 "" (.obj [("message", .str "sold")]))
    Page.empty (Or.inr rfl)

/-! ## C6 -/

theorem quote_customer_id : quoteJSONString "customer_id" = "\"customer_id\"" := by decide

theorem quote_showtime_id : quoteJSONString "showtime_id" = "\"showtime_id\"" := by decide

theorem stringify_purchase_body (cid sid : Nat) :
    Json.stringify (.obj [("customer_id", .num (Int.ofNat cid)),
      ("showtime_id", .num (Int.ofNat sid))]) =
      "\x7b\"customer_id\":" ++ toString cid ++ ",\"showtime_id\":" ++ toString sid ++ "\x7d" := by
  simp only [Json.stringify, Json.stringify.stringifyFields, quote_customer_id, quote_showtime_id,
    List.isEmpty_cons, List.isEmpty_nil, Bool.false_eq_true, if_false, if_true]
  have hi : ∀ n : Nat, toString (Int.ofNat n) = toString n := fun n => rfl
  simp only [hi, String.append_assoc]
  rfl

/-- C6: with both values non-empty and a successful response whose `message`
is the text `msg`, the purchase handler posts exactly one request to
`/tickets/purchase` whose body holds `parseInt` of the two values, sets the
result panel to the `alert-success` block with `msg` verbatim inside it and
raises exactly one alert, of severity `success`; for values that are the decimal numerals of two identifiers the
body is `{"customer_id":cid,"showtime_id":sid}` with these integers. -/
theorem purchase_success (customerId showtimeId : String) (status : Nat) (text : String)
    (body : Json) (msg : String) (prior : Page)
    (hc : customerId ≠ "") (hs : showtimeId ≠ "")
    (hmsg : body.getProp "message" = .ok (some (.str msg))) :
    (purchaseSubmit customerId showtimeId (fetched status text body) prior).requests =
      prior.requests ++ [Request.mk "POST" "/api/tickets/purchase"
        (some (Json.stringify (.obj
          [("customer_id", numberOrNaN (parseInt customerId)),
           ("showtime_id", numberOrNaN (parseInt showtimeId))])))] ∧
    (purchaseSubmit customerId showtimeId (fetched status text body) prior).div
      "purchase-ticket-result" =
      "\n        <div class=\"alert alert-success mb-0\" role=\"alert\">\n          " ++ msg ++
        "\n        </div>\n      " ∧
    (purchaseSubmit customerId showtimeId (fetched status text body) prior).alerts =
      prior.alerts ++ [Alert.mk "Ticket purchase succeeded." "success" 4000] ∧
    ∀ cid sid : Nat, cid ≤ MAX_SAFE_INTEGER → sid ≤ MAX_SAFE_INTEGER →
      customerId = toString cid → showtimeId = toString sid →
      (purchaseSubmit customerId showtimeId (fetched status text body) prior).requests =
        prior.requests ++ [Request.mk "POST" "/api/tickets/purchase"
          (some ("\x7b\"customer_id\":" ++ toString cid ++ ",\"showtime_id\":" ++
            toString sid ++ "\x7d"))] := by
  have hreq : (purchaseSubmit customerId showtimeId (fetched status text body) prior).requests =
      prior.requests ++ [Request.mk "POST" "/api/tickets/purchase"
        (some (Json.stringify (.obj
          [("customer_id", numberOrNaN (parseInt customerId)),
           ("showtime_id", numberOrNaN (parseInt showtimeId))])))] := by
    have hurl : API_BASE ++ "/tickets/purchase" = "/api/tickets/purchase" := by decide
    simp [purchaseSubmit, hc, hs, apiPost, apiPost.settle, fetched, hmsg, showGlobalAlert,
      Page.setDiv, apiPost.request, hurl]
  refine ⟨hreq, ?_, ?_, ?_⟩
  · simp [purchaseSubmit, hc, hs, apiPost, apiPost.settle, fetched, hmsg, showGlobalAlert,
      Page.setDiv, apiPost.request, interpolate, Json.toJsString, purchaseSuccessPanel]
  · simp [purchaseSubmit, hc, hs, apiPost, apiPost.settle, fetched, hmsg, showGlobalAlert,
      Page.setDiv, apiPost.request, defaultTimeoutMs]
  · intro cid sid _ _ hcid hsid
    rw [hreq, hcid, hsid, parseInt_toString, parseInt_toString]
    simp only [numberOrNaN, stringify_purchase_body]

/-- The purchase handler for customer 12 and showtime 3. -/
theorem purchase_success_witness :
    (purchaseSubmit "12" "3" (fetched 200 "" (.obj [("message", .str "Ticket sold.")]))
        Page.empty).requests =
      [Request.mk "POST" "/api/tickets/purchase"
        (some "\x7b\"customer_id\":12,\"showtime_id\":3\x7d")] ∧
    (purchaseSubmit "12" "3" (fetched 200 "" (.obj [("message", .str "Ticket sold.")]))
        Page.empty).div "purchase-ticket-result" =
      "\n        <div class=\"alert alert-success mb-0\" role=\"alert\">\n          Ticket sold." ++
        "\n        </div>\n      " ∧
    (purchaseSubmit "12" "3" (fetched 200 "" (.obj [("message", .str "Ticket sold.")]))
        Page.empty).alerts =
      [Alert.mk "Ticket purchase succeeded." "success" 4000] := by
  have h := purchase_success "12" "3" 200 "" (.obj [("message", .str "Ticket sold.")])
    "Ticket sold." Page.empty (by decide) (by decide) rfl
  exact ⟨h.2.2.2 12 3 (by decide) (by decide) (by decide) (by decide),
    h.2.1.trans (by decide), h.2.2.1⟩

/-! ## C7 -/

/-- C7 as stated fails: an empty `detail` string is replaced by the
re-serialised body, and a body without `detail` yields its compact
re-serialisation, which is not the raw text. -/
theorem apiPost_message_counterexample :
    apiPost.settle (.ok (Response.mk false 400 "\x7b\"detail\":\"\"\x7d"
        (.ok (.obj [("detail", .str "")])))) = .error "\x7b\"detail\":\"\"\x7d" ∧
    "\x7b\"detail\":\"\"\x7d" ≠ "" ∧
    apiPost.settle (.ok (Response.mk false 500 "\x7b \"error\": \"full\" \x7d"
        (.ok (.obj [("error", .str "full")])))) = .error "\x7b\"error\":\"full\"\x7d" ∧
    "\x7b\"error\":\"full\"\x7d" ≠ "\x7b \"error\": \"full\" \x7d" := by
  refine ⟨?_, by decide, ?_, by decide⟩
  · have h : Json.stringify (.obj [("detail", .str "")]) = "\x7b\"detail\":\"\"\x7d" := by decide
    simp [apiPost.settle, apiPost.detail, Json.getProp, List.lookup, Json.truthy, h]
  · have h : Json.stringify (.obj [("error", .str "full")]) = "\x7b\"error\":\"full\"\x7d" := by
      decide
    have hk : ("detail" == "error") = false := by decide
    simp [apiPost.settle, apiPost.detail, Json.getProp, List.lookup, hk, h]

/-- C7, amended: on a failure status, a body that parses as an object with a
non-empty `detail` string fails with exactly that string as message; a body
that parses as an object without `detail` fails with `JSON.stringify` of the
parsed body as message. -/
theorem apiPost_failure_message (r : Response Json) (fields : List (String × Json))
    (hok : r.ok = false) (hjson : r.json = .ok (.obj fields)) :
    (∀ d : String, fields.lookup "detail" = some (.str d) → d ≠ "" →
      apiPost.settle (.ok r) = .error d) ∧
    (fields.lookup "detail" = none →
      apiPost.settle (.ok r) = .error (Json.stringify (.obj fields))) := by
  constructor
  · intro d hd hne
    simp [apiPost.settle, hok, hjson, apiPost.detail, Json.getProp, hd, Json.truthy, hne,
      Json.toJsString]
  · intro hd
    simp [apiPost.settle, hok, hjson, apiPost.detail, Json.getProp, hd]

/-- The failure message of `apiPost` for the body `{"detail":"Showtime is full"}`. -/
theorem apiPost_failure_message_witness :
    apiPost.settle (.ok (Response.mk false 400 "\x7b\"detail\":\"Showtime is full\"\x7d"
        (.ok (.obj [("detail", .str "Showtime is full")])))) =
      .error "Showtime is full" :=
  (apiPost_failure_message
    (Response.mk false 400 "\x7b\"detail\":\"Showtime is full\"\x7d"
      (.ok (.obj [("detail", .str "Showtime is full")])))
    [("detail", .str "Showtime is full")] rfl rfl).1 "Showtime is full" rfl (by decide)

/-! ## Appending options in a loop -/

theorem setSelect_select_self (p : Page) (id : String) (opts : List OptionEl) :
    (p.setSelect id opts).select id = opts := by
  simp [Page.setSelect]

theorem setSelect_setSelect (p : Page) (id : String) (o₁ o₂ : List OptionEl) :
    (p.setSelect id o₁).setSelect id o₂ = p.setSelect id o₂ := by
  simp only [Page.setSelect, Page.mk.injEq, and_self, and_true, true_and]
  funext k
  split <;> rfl

theorem foldl_appendOption {α : Type} (id : String) (f : α → OptionEl) (xs : List α)
    (first : List OptionEl) (p : Page) :
    xs.foldl (fun p x => p.appendOption id (f x)) (p.setSelect id first) =
      p.setSelect id (first ++ xs.map f) := by
  induction xs generalizing first with
  | nil => simp
  | cons x xs ih =>
    simp only [List.foldl_cons, List.map_cons]
    rw [Page.appendOption, setSelect_setSelect, setSelect_select_self, ih, List.append_assoc]
    rfl

theorem populatesSelect_of_eq {α : Type} (render : α → OptionEl) (ident : α → Nat)
    (placeholder : String) (records : List α) (options : List OptionEl)
    (hvalue : ∀ a, (render a).value = toString (ident a))
    (h : options = { value := "", textContent := placeholder } :: records.map render) :
    PopulatesSelect render ident placeholder records options := by
  subst h
  refine ⟨by simp, by simp, ?_⟩
  intro i hi
  refine ⟨?_, hvalue _⟩
  simp [List.getElem?_eq_getElem hi]

theorem loadCustomersIntoSelect_fetched (selectId : String) (status : Nat) (text : String)
    (customers : List Customer) (p : Page) :
    loadCustomersIntoSelect selectId (fetched status text customers) p =
      (apiGet.request "/customers" p).setSelect selectId
        ({ value := "", textContent := "Select a customer..." } ::
          customers.map customerOption) := by
  simp only [loadCustomersIntoSelect, apiGet, settle_fetched, loadCustomersIntoSelect.resume,
    foldl_appendOption, List.singleton_append]

theorem loadShowtimesIntoSelect_fetched (selectId : String) (status₁ status₂ : Nat)
    (text₁ text₂ : String) (showtimes : List Showtime) (movies : List Movie) (p : Page) :
    loadShowtimesIntoSelect selectId (fetched status₁ text₁ showtimes)
        (fetched status₂ text₂ movies) p =
      (apiGet.request "/movies" (apiGet.request "/showtimes" p)).setSelect selectId
        ({ value := "", textContent := "Select a showtime..." } ::
          showtimes.map (showtimeOption (buildMoviesById movies))) := by
  simp only [loadShowtimesIntoSelect, apiGet, settle_fetched, loadShowtimesIntoSelect.resume,
    foldl_appendOption, List.singleton_append]

theorem loadMoviesIntoSelect_fetched (selectId : String) (status : Nat) (text : String)
    (movies : List Movie) (p : Page) :
    loadMoviesIntoSelect selectId (fetched status text movies) p =
      (apiGet.request "/movies" p).setSelect selectId
        ({ value := "", textContent := "Select a movie..." } :: movies.map movieOption) := by
  simp only [loadMoviesIntoSelect, apiGet, settle_fetched, loadMoviesIntoSelect.resume,
    foldl_appendOption, List.singleton_append]

theorem lookup_foldl_moviesById (k : Nat) (movies : List Movie) (acc : List (Nat × String))
    (h : ∀ m ∈ movies, m.movie_id ≠ k) :
    (movies.foldl (fun moviesById m => (m.movie_id, m.title) :: moviesById) acc).lookup k =
      acc.lookup k := by
  induction movies generalizing acc with
  | nil => rfl
  | cons m ms ih =>
    simp only [List.foldl_cons]
    rw [ih _ (fun x hx => h x (List.mem_cons_of_mem _ hx))]
    have hm : (k == m.movie_id) = false := by
      simpa using fun e => h m (List.mem_cons_self _ _) e.symm
    simp [List.lookup, hm]

/-! ## C4 -/

/-- C4: in `loadShowtimesIntoSelect`, when both lists are fetched, a showtime
(at position `i`) whose `movie_id` belongs to no fetched movie does not make
the populate fail (no alert is raised, every showtime has its option) and its
option is labelled `{showtime_id} — Movie {movie_id} @ {start_time} (Aud {theater_id})`. -/
theorem showtime_unmatched_movie_label (selectId : String) (status₁ status₂ : Nat)
    (text₁ text₂ : String) (showtimes : List Showtime) (movies : List Movie) (prior : Page)
    (i : Nat) (hi : i < showtimes.length)
    (habsent : ∀ m ∈ movies, m.movie_id ≠ (showtimes.get ⟨i, hi⟩).movie_id) :
    (loadShowtimesIntoSelect selectId (fetched status₁ text₁ showtimes)
        (fetched status₂ text₂ movies) prior).alerts = prior.alerts ∧
    ((loadShowtimesIntoSelect selectId (fetched status₁ text₁ showtimes)
        (fetched status₂ text₂ movies) prior).select selectId).length = showtimes.length + 1 ∧
    ((loadShowtimesIntoSelect selectId (fetched status₁ text₁ showtimes)
        (fetched status₂ text₂ movies) prior).select selectId)[i + 1]? =
      some { value := toString (showtimes.get ⟨i, hi⟩).showtime_id,
             textContent := toString (showtimes.get ⟨i, hi⟩).showtime_id ++ " — Movie " ++
               toString (showtimes.get ⟨i, hi⟩).movie_id ++ " @ " ++
               (showtimes.get ⟨i, hi⟩).start_time ++ " (Aud " ++
               toString (showtimes.get ⟨i, hi⟩).theater_id ++ ")" } := by
  rw [loadShowtimesIntoSelect_fetched, setSelect_select_self]
  refine ⟨rfl, by simp, ?_⟩
  have hlook : (buildMoviesById movies).lookup (showtimes.get ⟨i, hi⟩).movie_id = none :=
    lookup_foldl_moviesById _ movies [] habsent
  have hsplit : (" — Movie " : String) = " — " ++ "Movie " := by decide
  simp only [List.getElem?_cons_succ, List.getElem?_map, List.getElem?_eq_getElem hi,
    Option.map_some', showtimeOption, movieTitleOf, List.get_eq_getElem] at hlook ⊢
  simp only [hlook, hsplit, String.append_assoc]

/-- The showtime select for one showtime of movie 9 and the single movie 5. -/
theorem showtime_unmatched_movie_label_witness :
    (loadShowtimesIntoSelect "select-showtime"
        (fetched 200 "" [⟨2, 9, "2024-05-01T12:00", "2024-05-01T14:00", 3⟩])
        (fetched 200 "" [⟨5, "Heat", "Crime", 170, "1995-12-15", true⟩]) Page.empty).alerts = [] ∧
    ((loadShowtimesIntoSelect "select-showtime"
        (fetched 200 "" [⟨2, 9, "2024-05-01T12:00", "2024-05-01T14:00", 3⟩])
        (fetched 200 "" [⟨5, "Heat", "Crime", 170, "1995-12-15", true⟩])
        Page.empty).select "select-showtime")[1]? =
      some { value := "2", textContent := "2 — Movie 9 @ 2024-05-01T12:00 (Aud 3)" } := by
  have h := showtime_unmatched_movie_label "select-showtime" 200 200 "" ""
    [⟨2, 9, "2024-05-01T12:00", "2024-05-01T14:00", 3⟩]
    [⟨5, "Heat", "Crime", 170, "1995-12-15", true⟩] Page.empty 0 (by decide) (by decide)
  refine ⟨h.1, ?_⟩
  rw [h.2.2]
  decide

/-! ## C5 -/

/-- C5: each dropdown populator, on a successful fetch of `n` records and
whatever the control held before, leaves `n + 1` options: the placeholder
with the empty value first, then one option per record in fetch order, each
with the record's identifier as value. -/
theorem populators_fill_select (selectId : String) (prior : Page) (status₁ status₂ : Nat)
    (text₁ text₂ : String) (customers : List Customer) (showtimes : List Showtime)
    (movies : List Movie) :
    PopulatesSelect customerOption Customer.customer_id "Select a customer..." customers
      ((loadCustomersIntoSelect selectId (fetched status₁ text₁ customers) prior).select
        selectId) ∧
    PopulatesSelect (showtimeOption (buildMoviesById movies)) Showtime.showtime_id
      "Select a showtime..." showtimes
      ((loadShowtimesIntoSelect selectId (fetched status₁ text₁ showtimes)
        (fetched status₂ text₂ movies) prior).select selectId) ∧
    PopulatesSelect movieOption Movie.movie_id "Select a movie..." movies
      ((loadMoviesIntoSelect selectId (fetched status₁ text₁ movies) prior).select selectId) := by
  refine ⟨?_, ?_, ?_⟩
  · exact populatesSelect_of_eq _ _ _ _ _ (fun _ => rfl)
      (by rw [loadCustomersIntoSelect_fetched, setSelect_select_self])
  · exact populatesSelect_of_eq _ _ _ _ _ (fun _ => rfl)
      (by rw [loadShowtimesIntoSelect_fetched, setSelect_select_self])
  · exact populatesSelect_of_eq _ _ _ _ _ (fun _ => rfl)
      (by rw [loadMoviesIntoSelect_fetched, setSelect_select_self])

/-- The customer select, which held two stale options, after one customer was
fetched. -/
theorem populators_fill_select_witness :
    ((loadCustomersIntoSelect "select-customer" (fetched 200 "" [⟨4, "Ann", some "Lee"⟩])
        (Page.empty.setSelect "select-customer" [⟨"1", "old"⟩, ⟨"2", "older"⟩])).select
        "select-customer").length = 2 ∧
    ((loadCustomersIntoSelect "select-customer" (fetched 200 "" [⟨4, "Ann", some "Lee"⟩])
        (Page.empty.setSelect "select-customer" [⟨"1", "old"⟩, ⟨"2", "older"⟩])).select
        "select-customer")[1]? = some { value := "4", textContent := "4 — Ann Lee" } := by
  have h := (populators_fill_select "select-customer"
    (Page.empty.setSelect "select-customer" [⟨"1", "old"⟩, ⟨"2", "older"⟩]) 200 200 "" ""
    [⟨4, "Ann", some "Lee"⟩] [] []).1
  refine ⟨h.1, ?_⟩
  rw [(h.2.2 0 (by decide)).1]
  decide

/-! ## C3 -/

/-- C3 as stated fails: `loadNowPlaying` clears its table only after the fetch
has succeeded, so a failing fetch leaves the stale row in place. -/
theorem failed_fetch_counterexample :
    (loadNowPlaying (.error "Failed to fetch")
        (Page.empty.setTbody "table-now-playing" [.tr "<td>stale</td>"])).tbody
        "table-now-playing" = [.tr "<td>stale</td>"] ∧
    (loadNowPlaying (.error "Failed to fetch")
        (Page.empty.setTbody "table-now-playing" [.tr "<td>stale</td>"])).tbody
        "table-now-playing" ≠ [] := by
  constructor <;> decide

/-- C3, amended: when the fetch fails with message `m`, each of the five
listing loaders leaves its table body as it was and raises exactly one alert,
of severity `danger`, whose text ends with `m`; the customer-history handler,
for a non-empty customer value, leaves its table body empty and raises exactly
one such alert. -/
theorem failed_fetch_alerts (prior : Page) (m : String) :
    (∀ res : Except String (Response (List Movie)),
      apiGet.settle "/movies/now-playing" res = .error m →
      (loadNowPlaying res prior).tbody "table-now-playing" = prior.tbody "table-now-playing" ∧
      (loadNowPlaying res prior).alerts = prior.alerts ++
        [Alert.mk ("Failed to load now playing movies: " ++ m) "danger" 4000]) ∧
    (∀ res : Except String (Response (List Movie)),
      apiGet.settle "/movies/upcoming" res = .error m →
      (loadUpcomingMovies res prior).tbody "table-upcoming" = prior.tbody "table-upcoming" ∧
      (loadUpcomingMovies res prior).alerts = prior.alerts ++
        [Alert.mk ("Failed to load upcoming movies: " ++ m) "danger" 4000]) ∧
    (∀ res : Except String (Response (List Movie)),
      apiGet.settle "/movies" res = .error m →
      (loadAllMovies res prior).tbody "table-all-movies" = prior.tbody "table-all-movies" ∧
      (loadAllMovies res prior).alerts = prior.alerts ++
        [Alert.mk ("Failed to load all movies: " ++ m) "danger" 4000]) ∧
    (∀ res : Except String (Response (List TicketSale)),
      apiGet.settle "/tickets/today" res = .error m →
      (loadTicketsToday res prior).tbody "table-tickets-today" =
        prior.tbody "table-tickets-today" ∧
      (loadTicketsToday res prior).alerts = prior.alerts ++
        [Alert.mk ("Failed to load today's tickets: " ++ m) "danger" 4000]) ∧
    (∀ res : Except String (Response (List TicketSale)),
      apiGet.settle "/tickets" res = .error m →
      (loadAllTickets res prior).tbody "table-all-tickets" = prior.tbody "table-all-tickets" ∧
      (loadAllTickets res prior).alerts = prior.alerts ++
        [Alert.mk ("Failed to load all tickets: " ++ m) "danger" 4000]) ∧
    (∀ (customerId : String) (res : Except String (Response (List HistoryRow))),
      customerId ≠ "" →
      apiGet.settle ("/tickets/customers/" ++ customerId ++ "/tickets") res = .error m →
      (historyChange customerId res prior).tbody "table-customer-history" = [] ∧
      (historyChange customerId res prior).alerts = prior.alerts ++
        [Alert.mk ("Failed to load customer ticket history: " ++ m) "danger" 4000]) := by
  refine ⟨?_, ?_, ?_, ?_, ?_, ?_⟩
  · intro res h
    simp [loadNowPlaying, apiGet, h, loadNowPlaying.resume, showGlobalAlert, apiGet.request,
      defaultTimeoutMs]
  · intro res h
    simp [loadUpcomingMovies, apiGet, h, loadUpcomingMovies.resume, showGlobalAlert,
      apiGet.request, defaultTimeoutMs]
  · intro res h
    simp [loadAllMovies, apiGet, h, loadAllMovies.resume, showGlobalAlert, apiGet.request,
      defaultTimeoutMs]
  · intro res h
    simp [loadTicketsToday, apiGet, h, loadTicketsToday.resume, showGlobalAlert, apiGet.request,
      defaultTimeoutMs]
  · intro res h
    simp [loadAllTickets, apiGet, h, loadAllTickets.resume, showGlobalAlert, apiGet.request,
      defaultTimeoutMs]
  · intro customerId res hne h
    simp [historyChange, hne, apiGet, h, showGlobalAlert, apiGet.request, defaultTimeoutMs,
      Page.setTbody]

/-- A failing fetch of `/movies` over a stale table, and a failing history
fetch for customer 4. -/
theorem failed_fetch_alerts_witness :
    ((loadAllMovies (.ok (Response.mk false 503 "down" (.ok [])))
        (Page.empty.setTbody "table-all-movies" [.tr "<td>stale</td>"])).tbody "table-all-movies"
        = [.tr "<td>stale</td>"] ∧
      (loadAllMovies (.ok (Response.mk false 503 "down" (.ok [])))
        (Page.empty.setTbody "table-all-movies" [.tr "<td>stale</td>"])).alerts =
        [Alert.mk "Failed to load all movies: GET /movies failed: 503 down" "danger" 4000]) ∧
    ((historyChange "4" (.error "Failed to fetch")
        (Page.empty.setTbody "table-customer-history" [.tr "<td>stale</td>"])).tbody
        "table-customer-history" = [] ∧
      (historyChange "4" (.error "Failed to fetch")
        (Page.empty.setTbody "table-customer-history" [.tr "<td>stale</td>"])).alerts =
        [Alert.mk "Failed to load customer ticket history: Failed to fetch" "danger" 4000]) :=
  ⟨(failed_fetch_alerts (Page.empty.setTbody "table-all-movies" [.tr "<td>stale</td>"])
      "GET /movies failed: 503 down").2.2.1 (.ok (Response.mk false 503 "down" (.ok [])))
      rfl,
   (failed_fetch_alerts (Page.empty.setTbody "table-customer-history" [.tr "<td>stale</td>"])
      "Failed to fetch").2.2.2.2.2 "4" (.error "Failed to fetch") (by decide) rfl⟩

/-! ## C10 -/

theorem active_mem_classListAdd (classList : List String) :
    "active" ∈ classListAdd classList "active" := by
  unfold classListAdd
  split
  · assumption
  · simp

theorem active_not_mem_classListRemove (classList : List String) :
    "active" ∉ classListRemove classList "active" := by
  simp [classListRemove]

/-- C10 as stated fails: the handler activates the sections whose id equals
the `data-section` of the clicked link, however many there are. A link that
names no section leaves no section active, and a link that names the id of two
sections leaves both active. -/
theorem nav_click_counterexample :
    (navClick 0
      ⟨[⟨some "section-reports", ["nav-link"]⟩],
       [⟨"section-overview", ["app-section", "active"]⟩,
        ⟨"section-tickets", ["app-section"]⟩]⟩).sections =
      [⟨"section-overview", ["app-section"]⟩, ⟨"section-tickets", ["app-section"]⟩] ∧
    ((navClick 0
      ⟨[⟨some "section-reports", ["nav-link"]⟩],
       [⟨"section-overview", ["app-section", "active"]⟩,
        ⟨"section-tickets", ["app-section"]⟩]⟩).sections.filter
      (fun sec => decide ("active" ∈ sec.classList))).length = 0 ∧
    ((navClick 0
      ⟨[⟨some "section-tickets", ["nav-link"]⟩],
       [⟨"section-tickets", ["app-section"]⟩,
        ⟨"section-tickets", ["app-section"]⟩]⟩).sections.filter
      (fun sec => decide ("active" ∈ sec.classList))).length = 2 := by
  refine ⟨?_, ?_, ?_⟩ <;> decide

/-- C10, amended: after a click on the link at position `k`, a link is active
exactly when it is the clicked one, and a section is active exactly when its
id is the `data-section` of the clicked link; so when that attribute names
exactly one section (the one at position `i₀`), that section is the only
active one. -/
theorem nav_click_single_active (st : NavState) (k : Nat) (hk : k < st.links.length) :
    (navClick k st).links.length = st.links.length ∧
    (navClick k st).links.map NavLink.dataSection = st.links.map NavLink.dataSection ∧
    (navClick k st).sections.map Section.id = st.sections.map Section.id ∧
    (∀ (j : Nat) (l : NavLink), (navClick k st).links[j]? = some l →
      ("active" ∈ l.classList ↔ j = k)) ∧
    (∀ (i : Nat) (sec : Section), (navClick k st).sections[i]? = some sec →
      ("active" ∈ sec.classList ↔ some sec.id = (st.links.get ⟨k, hk⟩).dataSection)) ∧
    (∀ i₀ : Nat, i₀ < st.sections.length →
      (∀ (i : Nat) (sec : Section), st.sections[i]? = some sec →
        (some sec.id = (st.links.get ⟨k, hk⟩).dataSection ↔ i = i₀)) →
      i₀ < (navClick k st).sections.length ∧
      ∀ (i : Nat) (sec : Section), (navClick k st).sections[i]? = some sec →
        ("active" ∈ sec.classList ↔ i = i₀)) := by
  have hget : st.links[k]? = some (st.links.get ⟨k, hk⟩) := by
    simp [List.getElem?_eq_getElem hk]
  have hsec : ∀ (i : Nat) (sec : Section), (navClick k st).sections[i]? = some sec →
      ∃ old, st.sections[i]? = some old ∧ sec.id = old.id ∧
        ("active" ∈ sec.classList ↔ some old.id = (st.links.get ⟨k, hk⟩).dataSection) := by
    intro i sec h
    simp only [navClick, hget, List.getElem?_map, Option.map_eq_some'] at h
    obtain ⟨old, hold, hsec⟩ := h
    refine ⟨old, hold, ?_⟩
    by_cases hid : some old.id = (st.links.get ⟨k, hk⟩).dataSection
    · rw [if_pos hid] at hsec
      subst hsec
      exact ⟨rfl, iff_of_true (active_mem_classListAdd _) hid⟩
    · rw [if_neg hid] at hsec
      subst hsec
      exact ⟨rfl, iff_of_false (active_not_mem_classListRemove _) hid⟩
  refine ⟨?_, ?_, ?_, ?_, ?_, ?_⟩
  · simp [navClick, hget]
  · simp only [navClick, hget]
    apply List.ext_getElem?
    intro j
    simp only [List.getElem?_map, List.getElem?_modify]
    cases st.links[j]? <;> simp
    split <;> rfl
  · simp only [navClick, hget, List.map_map]
    apply List.map_congr_left
    intro sec _
    simp only [Function.comp]
    split <;> rfl
  · intro j l h
    simp only [navClick, hget, List.getElem?_modify, List.getElem?_map] at h
    cases hj : st.links[j]? with
    | none => simp [hj] at h
    | some old =>
      simp only [hj, Option.map_some', Option.map_eq_map, Option.some.injEq] at h
      by_cases hkj : k = j
      · simp only [hkj, if_true] at h
        subst h
        exact iff_of_true (active_mem_classListAdd _) hkj.symm
      · simp only [hkj, if_false] at h
        subst h
        exact iff_of_false (active_not_mem_classListRemove _) (Ne.symm hkj)
  · intro i sec h
    obtain ⟨old, _, hid, hact⟩ := hsec i sec h
    rw [hid]
    exact hact
  · intro i₀ hi₀ huniq
    refine ⟨by simpa [navClick, hget] using hi₀, ?_⟩
    intro i sec h
    obtain ⟨old, hold, _, hact⟩ := hsec i sec h
    exact hact.trans (huniq i old hold)

/-- A click on the second link of a page that showed the first section. -/
theorem nav_click_single_active_witness :
    navClick 1
      ⟨[⟨some "section-overview", ["nav-link", "active"]⟩, ⟨some "section-tickets", ["nav-link"]⟩],
       [⟨"section-overview", ["app-section", "active"]⟩, ⟨"section-tickets", ["app-section"]⟩]⟩ =
      ⟨[⟨some "section-overview", ["nav-link"]⟩, ⟨some "section-tickets", ["nav-link", "active"]⟩],
       [⟨"section-overview", ["app-section"]⟩, ⟨"section-tickets", ["app-section", "active"]⟩]⟩ ∧
    ∀ (i : Nat) (sec : Section),
      (navClick 1
        ⟨[⟨some "section-overview", ["nav-link", "active"]⟩,
          ⟨some "section-tickets", ["nav-link"]⟩],
         [⟨"section-overview", ["app-section", "active"]⟩,
          ⟨"section-tickets", ["app-section"]⟩]⟩).sections[i]? = some sec →
      ("active" ∈ sec.classList ↔ i = 1) := by
  refine ⟨by decide, ?_⟩
  refine ((nav_click_single_active
    ⟨[⟨some "section-overview", ["nav-link", "active"]⟩, ⟨some "section-tickets", ["nav-link"]⟩],
     [⟨"section-overview", ["app-section", "active"]⟩, ⟨"section-tickets", ["app-section"]⟩]⟩
    1 (by decide)).2.2.2.2.2 1 (by decide) ?_).2
  intro i sec h
  match i, h with
  | 0, h =>
    simp only [List.getElem?_cons_zero, Option.some.injEq] at h
    subst h
    decide
  | 1, h =>
    simp only [List.getElem?_cons_succ, List.getElem?_cons_zero, Option.some.injEq] at h
    subst h
    decide
  | n + 2, h => simp at h

/-! ## C9 -/

/-- C9 as stated fails: the Query 2 handler, submitted with no showtime,
returns without raising any alert. -/
theorem report_empty_field_counterexample :
    (reportQ2Submit "" (fetched 200 "" ⟨1, 50, 10, 40⟩) Page.empty).alerts = [] ∧
    (reportQ2Submit "" (fetched 200 "" ⟨1, 50, 10, 40⟩) Page.empty).requests = [] := by
  constructor <;> decide

/-- C9, amended: a submission with an empty required field issues no request
in any of the six handlers; the purchase handler raises exactly one `warning`
alert, the report handlers raise no alert and leave their result region
cleared. -/
theorem empty_field_issues_no_request (prior : Page) :
    (∀ (customerId showtimeId : String) (res : Except String (Response Json)),
      customerId = "" ∨ showtimeId = "" →
      (purchaseSubmit customerId showtimeId res prior).requests = prior.requests ∧
      (purchaseSubmit customerId showtimeId res prior).alerts = prior.alerts ++
        [Alert.mk "Please select both customer and showtime." "warning" 4000]) ∧
    (∀ (titleInput date : String) (res : Except String (Response (List MovieShowtimeRow))),
      jsTrim titleInput = "" ∨ date = "" →
      (reportQ1Submit titleInput date res prior).requests = prior.requests ∧
      (reportQ1Submit titleInput date res prior).alerts = prior.alerts ∧
      (reportQ1Submit titleInput date res prior).tbody "table-report-q1" = []) ∧
    (∀ res : Except String (Response Availability),
      (reportQ2Submit "" res prior).requests = prior.requests ∧
      (reportQ2Submit "" res prior).alerts = prior.alerts ∧
      (reportQ2Submit "" res prior).div "report-q2-result" = "") ∧
    (∀ res : Except String (Response LifetimeSales),
      (reportQ4Submit "" res prior).requests = prior.requests ∧
      (reportQ4Submit "" res prior).alerts = prior.alerts ∧
      (reportQ4Submit "" res prior).div "report-q4-result" = "") ∧
    (∀ res : Except String (Response DailySales),
      (reportDailySubmit "" res prior).requests = prior.requests ∧
      (reportDailySubmit "" res prior).alerts = prior.alerts ∧
      (reportDailySubmit "" res prior).div "report-daily-result" = "") ∧
    (∀ res : Except String (Response MovieProfit),
      (reportProfitSubmit "" res prior).requests = prior.requests ∧
      (reportProfitSubmit "" res prior).alerts = prior.alerts ∧
      (reportProfitSubmit "" res prior).div "report-profit-result" = "") := by
  refine ⟨?_, ?_, ?_, ?_, ?_, ?_⟩
  · intro customerId showtimeId res h
    simp [purchaseSubmit, h, showGlobalAlert, Page.setDiv, defaultTimeoutMs]
  · intro titleInput date res h
    simp [reportQ1Submit, h, Page.setTbody]
  · intro res
    simp [reportQ2Submit, Page.setDiv]
  · intro res
    simp [reportQ4Submit, Page.setDiv]
  · intro res
    simp [reportDailySubmit, Page.setDiv]
  · intro res
    simp [reportProfitSubmit, Page.setDiv]

/-- The Query 1 handler submitted with a blank title over a stale table. -/
theorem empty_field_issues_no_request_witness :
    (reportQ1Submit "  " "2024-05-01" (fetched 200 "" [])
        (Page.empty.setTbody "table-report-q1" [.tr "<td>stale</td>"])).requests = [] ∧
    (reportQ1Submit "  " "2024-05-01" (fetched 200 "" [])
        (Page.empty.setTbody "table-report-q1" [.tr "<td>stale</td>"])).alerts = [] ∧
    (reportQ1Submit "  " "2024-05-01" (fetched 200 "" [])
        (Page.empty.setTbody "table-report-q1" [.tr "<td>stale</td>"])).tbody "table-report-q1"
        = [] :=
  (empty_field_issues_no_request
    (Page.empty.setTbody "table-report-q1" [.tr "<td>stale</td>"])).2.1 "  " "2024-05-01"
    (fetched 200 "" []) (Or.inl (by decide))

/-! ## The page load -/

@[simp] theorem setTbody_tbody (p : Page) (id k : String) (rows : List TableRow) :
    (p.setTbody id rows).tbody k = if k = id then rows else p.tbody k := rfl

@[simp] theorem setTbody_select (p : Page) (id : String) (rows : List TableRow) :
    (p.setTbody id rows).select = p.select := rfl

@[simp] theorem setTbody_alerts (p : Page) (id : String) (rows : List TableRow) :
    (p.setTbody id rows).alerts = p.alerts := rfl

@[simp] theorem setSelect_select (p : Page) (id k : String) (opts : List OptionEl) :
    (p.setSelect id opts).select k = if k = id then opts else p.select k := rfl

@[simp] theorem setSelect_tbody (p : Page) (id : String) (opts : List OptionEl) :
    (p.setSelect id opts).tbody = p.tbody := rfl

@[simp] theorem setSelect_alerts (p : Page) (id : String) (opts : List OptionEl) :
    (p.setSelect id opts).alerts = p.alerts := rfl

@[simp] theorem showGlobalAlert_tbody (message type : String) (timeoutMs : Nat) (p : Page) :
    (showGlobalAlert message type timeoutMs p).tbody = p.tbody := rfl

@[simp] theorem showGlobalAlert_select (message type : String) (timeoutMs : Nat) (p : Page) :
    (showGlobalAlert message type timeoutMs p).select = p.select := rfl

@[simp] theorem showGlobalAlert_alerts (message type : String) (timeoutMs : Nat) (p : Page) :
    (showGlobalAlert message type timeoutMs p).alerts =
      p.alerts ++ [Alert.mk message type timeoutMs] := rfl

@[simp] theorem request_tbody (path : String) (p : Page) :
    (apiGet.request path p).tbody = p.tbody := rfl

@[simp] theorem request_select (path : String) (p : Page) :
    (apiGet.request path p).select = p.select := rfl

@[simp] theorem request_alerts (path : String) (p : Page) :
    (apiGet.request path p).alerts = p.alerts := rfl

theorem frame_of_alert (t : InitTask) (p : Page) (message : String) :
    Frame t p (showGlobalAlert message "danger" defaultTimeoutMs p) :=
  ⟨fun _ _ => rfl, fun _ _ => rfl, [Alert.mk message "danger" 4000], rfl, by simp⟩

theorem frame_of_tbody (t : InitTask) (id : String) (h : regionOf t = (true, id)) (p : Page)
    (rows : List TableRow) : Frame t p (p.setTbody id rows) := by
  refine ⟨?_, fun _ _ => rfl, [], by simp, by simp⟩
  intro k hk
  have : k ≠ id := fun e => hk (by rw [h, e])
  simp [this]

theorem frame_of_select (t : InitTask) (id : String) (h : regionOf t = (false, id)) (p : Page)
    (opts : List OptionEl) : Frame t p (p.setSelect id opts) := by
  refine ⟨fun _ _ => rfl, ?_, [], by simp, by simp⟩
  intro k hk
  have : k ≠ id := fun e => hk (by rw [h, e])
  simp [this]

theorem frame_refl (t : InitTask) (p : Page) : Frame t p p :=
  ⟨fun _ _ => rfl, fun _ _ => rfl, [], by simp, by simp⟩

theorem frame_request (t : InitTask) (path : String) (p : Page) :
    Frame t p (apiGet.request path p) :=
  ⟨fun _ _ => rfl, fun _ _ => rfl, [], by simp, by simp⟩

theorem listing_resume_eq {α : Type} (id : String) (render : α → TableRow) (ph : TableRow)
    (records : List α) (p : Page) :
    (if records.length = 0 then (p.setTbody id []).setTbody id [ph]
      else records.foldl (fun p x => p.appendRow id (render x)) (p.setTbody id [])) =
    p.setTbody id (if records.length = 0 then [ph] else records.map render) := by
  split
  · rw [setTbody_setTbody]
  · rw [foldl_appendRow, setTbody_setTbody, setTbody_tbody_self, List.nil_append]

theorem settleTask_frame (o : InitOutcomes) (t : InitTask) (s : TaskState) (p : Page) :
    Frame t p (settleTask o t s p).2 := by
  cases s with
  | settled => exact frame_refl t p
  | awaitingMovies showtimes =>
    cases t <;> simp only [settleTask] <;> try exact frame_refl _ p
    all_goals
      simp only [loadShowtimesIntoSelect.resume, loadShowtimesIntoSelect.fail]
      split
      · rw [foldl_appendOption]
        exact frame_of_select _ _ (by rfl) _ _
      · exact frame_of_alert _ _ _
  | awaiting =>
    cases t <;> simp only [settleTask, loadNowPlaying.resume, loadUpcomingMovies.resume,
      loadAllMovies.resume, loadCustomersIntoSelect.resume, loadMoviesIntoSelect.resume,
      loadShowtimesIntoSelect.fail] <;> split <;>
      first
        | exact frame_of_alert _ _ _
        | exact frame_request _ _ _
        | (rw [listing_resume_eq]; exact frame_of_tbody _ _ (by rfl) _ _)
        | (rw [foldl_appendOption]; exact frame_of_select _ _ (by rfl) _ _)

theorem regionOf_injective (t t' : InitTask) (h : regionOf t = regionOf t') : t = t' := by
  cases t <;> cases t' <;> first | rfl | (exact absurd h (by decide))

theorem listingOutcome_mono {α : Type} (render : α → TableRow) (colspan : Nat)
    (message failure id : String) (r : Except String (List α)) (p q : Page)
    (hreg : q.tbody id = p.tbody id) (hmem : ∀ a, a ∈ p.alerts → a ∈ q.alerts)
    (hp : ListingOutcome render colspan message failure id r p) :
    ListingOutcome render colspan message failure id r q := by
  cases r with
  | ok records => exact hreg.trans hp
  | error m => exact hmem _ hp

theorem selectOutcome_mono {α : Type} (render : α → OptionEl) (placeholder failure id : String)
    (r : Except String (List α)) (p q : Page)
    (hreg : q.select id = p.select id) (hmem : ∀ a, a ∈ p.alerts → a ∈ q.alerts)
    (hp : SelectOutcome render placeholder failure id r p) :
    SelectOutcome render placeholder failure id r q := by
  cases r with
  | ok records => exact hreg.trans hp
  | error m => exact hmem _ hp

theorem showtimeOutcome_mono (id : String) (showtimes : Except String (List Showtime))
    (movies : Except String (List Movie)) (p q : Page)
    (hreg : q.select id = p.select id) (hmem : ∀ a, a ∈ p.alerts → a ∈ q.alerts)
    (hp : ShowtimeOutcome id showtimes movies p) : ShowtimeOutcome id showtimes movies q := by
  cases showtimes with
  | error m => exact hmem _ hp
  | ok showtimes =>
    cases movies with
    | ok movies => exact hreg.trans hp
    | error m => exact hmem _ hp

theorem loaderOutcome_mono (o : InitOutcomes) (t : InitTask) (p q : Page)
    (htb : ∀ k, regionOf t = (true, k) → q.tbody k = p.tbody k)
    (hsel : ∀ k, regionOf t = (false, k) → q.select k = p.select k)
    (hmem : ∀ a, a ∈ p.alerts → a ∈ q.alerts) (hp : LoaderOutcome o t p) :
    LoaderOutcome o t q := by
  cases t
  case nowPlaying => exact listingOutcome_mono _ _ _ _ _ _ p q (htb _ rfl) hmem hp
  case upcoming => exact listingOutcome_mono _ _ _ _ _ _ p q (htb _ rfl) hmem hp
  case allMovies => exact listingOutcome_mono _ _ _ _ _ _ p q (htb _ rfl) hmem hp
  case customers => exact selectOutcome_mono _ _ _ _ _ p q (hsel _ rfl) hmem hp
  case historyCustomers => exact selectOutcome_mono _ _ _ _ _ p q (hsel _ rfl) hmem hp
  case showtimes => exact showtimeOutcome_mono _ _ _ p q (hsel _ rfl) hmem hp
  case q2Showtimes => exact showtimeOutcome_mono _ _ _ p q (hsel _ rfl) hmem hp
  case q4Movies => exact selectOutcome_mono _ _ _ _ _ p q (hsel _ rfl) hmem hp
  case profitMovies => exact selectOutcome_mono _ _ _ _ _ p q (hsel _ rfl) hmem hp

theorem loaderOutcome_of_frame (o : InitOutcomes) (t t' : InitTask) (h : t ≠ t') (p q : Page)
    (hf : Frame t' p q) (hp : LoaderOutcome o t p) : LoaderOutcome o t q := by
  obtain ⟨htb, hsel, extra, halerts, _⟩ := hf
  have hreg : ∀ b k, regionOf t = (b, k) → (b, k) ≠ regionOf t' := by
    intro b k hk e
    exact h (regionOf_injective t t' (hk.trans e))
  refine loaderOutcome_mono o t p q (fun k hk => htb k (hreg _ _ hk))
    (fun k hk => hsel k (hreg _ _ hk)) ?_ hp
  intro a ha
  rw [halerts]
  exact List.mem_append_left _ ha

/-- The loader that has just run satisfies its invariant. -/
theorem settleTask_inv (o : InitOutcomes) (t : InitTask) (s : TaskState) (p : Page)
    (h : TaskInv o t s p) :
    TaskInv o t (settleTask o t s p).1 (settleTask o t s p).2 := by
  cases s with
  | settled => exact h
  | awaitingMovies showtimes =>
    rcases h with ⟨rfl, h⟩ | ⟨rfl, h⟩
    · simp only [settleTask, TaskInv, LoaderOutcome, h, ShowtimeOutcome,
        loadShowtimesIntoSelect.resume, loadShowtimesIntoSelect.fail]
      cases apiGet.settle "/movies" o.showtimesMovies with
      | ok movies => simp [foldl_appendOption, selectOptions]
      | error m => simp [defaultTimeoutMs]
    · simp only [settleTask, TaskInv, LoaderOutcome, h, ShowtimeOutcome,
        loadShowtimesIntoSelect.resume, loadShowtimesIntoSelect.fail]
      cases apiGet.settle "/movies" o.q2ShowtimesMovies with
      | ok movies => simp [foldl_appendOption, selectOptions]
      | error m => simp [defaultTimeoutMs]
  | awaiting =>
    cases t
    case nowPlaying =>
      simp only [settleTask, TaskInv, LoaderOutcome, loadNowPlaying.resume]
      cases apiGet.settle "/movies/now-playing" o.nowPlaying with
      | ok records => exact tbody_listing _ _ _ _ _
      | error m => simp [ListingOutcome, defaultTimeoutMs]
    case upcoming =>
      simp only [settleTask, TaskInv, LoaderOutcome, loadUpcomingMovies.resume]
      cases apiGet.settle "/movies/upcoming" o.upcoming with
      | ok records => exact tbody_listing _ _ _ _ _
      | error m => simp [ListingOutcome, defaultTimeoutMs]
    case allMovies =>
      simp only [settleTask, TaskInv, LoaderOutcome, loadAllMovies.resume]
      cases apiGet.settle "/movies" o.allMovies with
      | ok records => exact tbody_listing _ _ _ _ _
      | error m => simp [ListingOutcome, defaultTimeoutMs]
    case customers =>
      simp only [settleTask, TaskInv, LoaderOutcome, loadCustomersIntoSelect.resume]
      cases apiGet.settle "/customers" o.customers with
      | ok records => simp [SelectOutcome, foldl_appendOption, selectOptions]
      | error m => simp [SelectOutcome, defaultTimeoutMs]
    case historyCustomers =>
      simp only [settleTask, TaskInv, LoaderOutcome, loadCustomersIntoSelect.resume]
      cases apiGet.settle "/customers" o.historyCustomers with
      | ok records => simp [SelectOutcome, foldl_appendOption, selectOptions]
      | error m => simp [SelectOutcome, defaultTimeoutMs]
    case showtimes =>
      simp only [settleTask]
      cases hs : apiGet.settle "/showtimes" o.showtimes with
      | ok records => exact Or.inl ⟨rfl, hs⟩
      | error m =>
        simp [TaskInv, LoaderOutcome, ShowtimeOutcome, hs, loadShowtimesIntoSelect.fail,
          defaultTimeoutMs]
    case q2Showtimes =>
      simp only [settleTask]
      cases hs : apiGet.settle "/showtimes" o.q2Showtimes with
      | ok records => exact Or.inr ⟨rfl, hs⟩
      | error m =>
        simp [TaskInv, LoaderOutcome, ShowtimeOutcome, hs, loadShowtimesIntoSelect.fail,
          defaultTimeoutMs]
    case q4Movies =>
      simp only [settleTask, TaskInv, LoaderOutcome, loadMoviesIntoSelect.resume]
      cases apiGet.settle "/movies" o.q4Movies with
      | ok records => simp [SelectOutcome, foldl_appendOption, selectOptions]
      | error m => simp [SelectOutcome, defaultTimeoutMs]
    case profitMovies =>
      simp only [settleTask, TaskInv, LoaderOutcome, loadMoviesIntoSelect.resume]
      cases apiGet.settle "/movies" o.profitMovies with
      | ok records => simp [SelectOutcome, foldl_appendOption, selectOptions]
      | error m => simp [SelectOutcome, defaultTimeoutMs]

/-- A step of another loader keeps what is known of loader `t`. -/
theorem taskInv_of_frame (o : InitOutcomes) (t t' : InitTask) (h : t ≠ t') (s : TaskState)
    (p q : Page) (hf : Frame t' p q) (hp : TaskInv o t s p) : TaskInv o t s q := by
  cases s with
  | awaiting => trivial
  | awaitingMovies showtimes => exact hp
  | settled => exact loaderOutcome_of_frame o t t' h p q hf hp

/-- What holds of the page and the loaders throughout the page load that
started on `prior`. -/
theorem bootInv_step (o : InitOutcomes) (prior : Page) (b : Boot) (t : InitTask)
    (halerts : ∃ extra, b.page.alerts = prior.alerts ++ extra ∧
      ∀ a ∈ extra, a.type = "danger" ∧ a.timeoutMs = 4000)
    (hinv : ∀ k, TaskInv o k (b.state k) b.page) :
    (∃ extra, (Boot.step o b t).page.alerts = prior.alerts ++ extra ∧
      ∀ a ∈ extra, a.type = "danger" ∧ a.timeoutMs = 4000) ∧
    ∀ k, TaskInv o k ((Boot.step o b t).state k) (Boot.step o b t).page := by
  have hf := settleTask_frame o t (b.state t) b.page
  constructor
  · obtain ⟨extra, he, hall⟩ := halerts
    obtain ⟨_, _, extra', he', hall'⟩ := hf
    refine ⟨extra ++ extra', ?_, ?_⟩
    · simp only [Boot.step]
      rw [he', he, List.append_assoc]
    · intro a ha
      rcases List.mem_append.mp ha with ha | ha
      · exact hall a ha
      · exact hall' a ha
  · intro k
    by_cases hk : k = t
    · subst hk
      simp only [Boot.step, if_true]
      exact settleTask_inv o k (b.state k) b.page (hinv k)
    · simp only [Boot.step, if_neg hk]
      exact taskInv_of_frame o k t hk _ _ _ hf (hinv k)

theorem bootInv_foldl (o : InitOutcomes) (prior : Page) (schedule : List InitTask) (b : Boot)
    (halerts : ∃ extra, b.page.alerts = prior.alerts ++ extra ∧
      ∀ a ∈ extra, a.type = "danger" ∧ a.timeoutMs = 4000)
    (hinv : ∀ k, TaskInv o k (b.state k) b.page) :
    (∃ extra, (schedule.foldl (Boot.step o) b).page.alerts = prior.alerts ++ extra ∧
      ∀ a ∈ extra, a.type = "danger" ∧ a.timeoutMs = 4000) ∧
    ∀ k, TaskInv o k ((schedule.foldl (Boot.step o) b).state k)
      (schedule.foldl (Boot.step o) b).page := by
  induction schedule generalizing b with
  | nil => exact ⟨halerts, hinv⟩
  | cons t ts ih =>
    have h := bootInv_step o prior b t halerts hinv
    exact ih (Boot.step o b t) h.1 h.2

theorem rank_settleTask (o : InitOutcomes) (t : InitTask) (s : TaskState) (p : Page) :
    (settleTask o t s p).1.rank ≤ s.rank - 1 := by
  cases s with
  | settled => simp [settleTask, TaskState.rank]
  | awaitingMovies showtimes => cases t <;> simp [settleTask, TaskState.rank]
  | awaiting =>
    cases t
    case showtimes =>
      simp only [settleTask]
      cases apiGet.settle "/showtimes" o.showtimes <;> simp [TaskState.rank]
    case q2Showtimes =>
      simp only [settleTask]
      cases apiGet.settle "/showtimes" o.q2Showtimes <;> simp [TaskState.rank]
    all_goals simp [settleTask, TaskState.rank]

theorem rank_foldl (o : InitOutcomes) (t : InitTask) (schedule : List InitTask) (b : Boot) :
    ((schedule.foldl (Boot.step o) b).state t).rank ≤ (b.state t).rank - schedule.count t := by
  induction schedule generalizing b with
  | nil => simp
  | cons x xs ih =>
    have h := ih (Boot.step o b x)
    simp only [List.foldl_cons]
    by_cases hx : t = x
    · subst hx
      have hr := rank_settleTask o t (b.state t) b.page
      have hstate : (Boot.step o b t).state t = (settleTask o t (b.state t) b.page).1 := by
        simp [Boot.step]
      rw [hstate] at h
      simp only [List.count_cons_self]
      omega
    · have hne : (x == t) = false := by simpa using fun e => hx e.symm
      have hstate : (Boot.step o b x).state t = b.state t := by
        simp [Boot.step, hx]
      rw [hstate] at h
      simp only [List.count_cons, hne]
      simpa using h

theorem settled_after_all (o : InitOutcomes) (t : InitTask) (b : Boot) :
    ((initTasks ++ initTasks).foldl (Boot.step o) b).state t = .settled := by
  have h := rank_foldl o t (initTasks ++ initTasks) b
  have hc : (initTasks ++ initTasks).count t = 2 := by cases t <;> decide
  have hb : (b.state t).rank ≤ 2 := by cases b.state t <;> simp [TaskState.rank]
  rw [hc] at h
  have h0 : (((initTasks ++ initTasks).foldl (Boot.step o) b).state t).rank = 0 := by omega
  cases hs : ((initTasks ++ initTasks).foldl (Boot.step o) b).state t with
  | settled => rfl
  | awaiting => rw [hs] at h0; simp [TaskState.rank] at h0
  | awaitingMovies st => rw [hs] at h0; simp [TaskState.rank] at h0

theorem ticketsToday_frame (r : Except String (List TicketSale)) (p : Page) :
    (∀ k, k ≠ "table-tickets-today" → (loadTicketsToday.resume r p).tbody k = p.tbody k) ∧
    (loadTicketsToday.resume r p).select = p.select ∧
    ∃ extra, (loadTicketsToday.resume r p).alerts = p.alerts ++ extra ∧
      ∀ a ∈ extra, a.type = "danger" ∧ a.timeoutMs = 4000 := by
  cases r with
  | error m =>
    exact ⟨fun _ _ => rfl, rfl, [Alert.mk ("Failed to load today's tickets: " ++ m) "danger" 4000],
      rfl, by simp⟩
  | ok tickets =>
    simp only [loadTicketsToday.resume]
    rw [listing_resume_eq]
    refine ⟨?_, rfl, [], by simp, by simp⟩
    intro k hk
    simp [hk]

/-! ## C8 -/

/-- C8 as stated fails: when the fetch of the now-playing movies is refused,
`initApp` still fulfils and the only alert on the page is the loader's own,
with the default duration; no `Failed to initialize app` alert is raised. -/
theorem init_failure_counterexample :
    (initApp refusedNowPlaying [] Page.empty).1 = .ok () ∧
    (onDOMContentLoaded refusedNowPlaying [] Page.empty).alerts =
      [Alert.mk "Failed to load now playing movies: Failed to fetch" "danger" 4000] ∧
    (onDOMContentLoaded refusedNowPlaying [] Page.empty).tbody "table-upcoming" =
      [.placeholder 3 "text-muted" "No upcoming movies."] := by
  refine ⟨rfl, ?_, ?_⟩ <;> decide

/-- C8, amended: however the fetches of the page load settle and in whatever
order, `initApp` fulfils; every alert raised is of severity `danger` with the
default duration of 4000 ms (none is persistent); and every one of the nine
loaders has either rendered its own region from what it fetched or raised its
own alert carrying the error message of its failed fetch. -/
theorem init_reports_per_loader (o : InitOutcomes) (schedule : List InitTask) (prior : Page) :
    (initApp o schedule prior).1 = .ok () ∧
    (∃ extra, (onDOMContentLoaded o schedule prior).alerts = prior.alerts ++ extra ∧
      ∀ a ∈ extra, a.type = "danger" ∧ a.timeoutMs = 4000) ∧
    ∀ t, LoaderOutcome o t (onDOMContentLoaded o schedule prior) := by
  have h0 : (∃ extra, (initApp.start prior).page.alerts = prior.alerts ++ extra ∧
      ∀ a ∈ extra, a.type = "danger" ∧ a.timeoutMs = 4000) ∧
      ∀ k, TaskInv o k ((initApp.start prior).state k) (initApp.start prior).page :=
    ⟨⟨[], by simp [initApp.start], by simp⟩, fun _ => trivial⟩
  have h1 := bootInv_foldl o prior schedule (initApp.start prior) h0.1 h0.2
  have h2 := bootInv_foldl o prior (initTasks ++ initTasks) _ h1.1 h1.2
  obtain ⟨⟨extra, he, hall⟩, hinv⟩ := h2
  obtain ⟨htb, hsel, extra', he', hall'⟩ :=
    ticketsToday_frame (apiGet.settle "/tickets/today" o.ticketsToday)
      (apiGet.request "/tickets/today"
        ((initTasks ++ initTasks).foldl (Boot.step o)
          (schedule.foldl (Boot.step o) (initApp.start prior))).page)
  refine ⟨rfl, ⟨extra ++ extra', ?_, ?_⟩, ?_⟩
  · show (loadTicketsToday.resume _ _).alerts = _
    rw [he', request_alerts, he, List.append_assoc]
  · intro a ha
    rcases List.mem_append.mp ha with ha | ha
    · exact hall a ha
    · exact hall' a ha
  · intro t
    have hdone := hinv t
    rw [settled_after_all] at hdone
    show LoaderOutcome o t (loadTicketsToday.resume _ _)
    refine loaderOutcome_mono o t _ _ ?_ ?_ ?_ hdone
    · intro k hk
      rw [htb k (by cases t <;> simp [regionOf] at hk <;> simp [← hk]), request_tbody]
    · intro k _
      rw [hsel, request_select]
    · intro a ha
      rw [he', request_alerts]
      exact List.mem_append_left _ ha

/-- The page load in which only the now-playing fetch is refused, the first
showtime fetch settling first. -/
theorem init_reports_per_loader_witness :
    (onDOMContentLoaded refusedNowPlaying [.showtimes] Page.empty).tbody "table-upcoming" =
      [.placeholder 3 "text-muted" "No upcoming movies."] ∧
    Alert.mk "Failed to load now playing movies: Failed to fetch" "danger" 4000 ∈
      (onDOMContentLoaded refusedNowPlaying [.showtimes] Page.empty).alerts :=
  ⟨(init_reports_per_loader refusedNowPlaying [.showtimes] Page.empty).2.2 .upcoming,
   (init_reports_per_loader refusedNowPlaying [.showtimes] Page.empty).2.2 .nowPlaying⟩

/-! ## The loaders as tasks of the page load -/

/-- A loader with one fetch is its request followed by one step of its task. -/
theorem settleTask_runs_loader (o : InitOutcomes) (p : Page) :
    loadNowPlaying o.nowPlaying p =
      (settleTask o .nowPlaying .awaiting (apiGet.request "/movies/now-playing" p)).2 ∧
    loadUpcomingMovies o.upcoming p =
      (settleTask o .upcoming .awaiting (apiGet.request "/movies/upcoming" p)).2 ∧
    loadAllMovies o.allMovies p =
      (settleTask o .allMovies .awaiting (apiGet.request "/movies" p)).2 ∧
    loadCustomersIntoSelect "select-customer" o.customers p =
      (settleTask o .customers .awaiting (apiGet.request "/customers" p)).2 ∧
    loadCustomersIntoSelect "select-history-customer" o.historyCustomers p =
      (settleTask o .historyCustomers .awaiting (apiGet.request "/customers" p)).2 ∧
    loadMoviesIntoSelect "report-q4-movie-id" o.q4Movies p =
      (settleTask o .q4Movies .awaiting (apiGet.request "/movies" p)).2 ∧
    loadMoviesIntoSelect "report-profit-movie-id" o.profitMovies p =
      (settleTask o .profitMovies .awaiting (apiGet.request "/movies" p)).2 :=
  ⟨rfl, rfl, rfl, rfl, rfl, rfl, rfl⟩

/-- A showtime populator is its request followed by two steps of its task. -/
theorem settleTask_runs_showtimes (o : InitOutcomes) (p : Page) :
    loadShowtimesIntoSelect "select-showtime" o.showtimes o.showtimesMovies p =
      (settleTask o .showtimes
        (settleTask o .showtimes .awaiting (apiGet.request "/showtimes" p)).1
        (settleTask o .showtimes .awaiting (apiGet.request "/showtimes" p)).2).2 ∧
    loadShowtimesIntoSelect "report-q2-showtime-id" o.q2Showtimes o.q2ShowtimesMovies p =
      (settleTask o .q2Showtimes
        (settleTask o .q2Showtimes .awaiting (apiGet.request "/showtimes" p)).1
        (settleTask o .q2Showtimes .awaiting (apiGet.request "/showtimes" p)).2).2 := by
  constructor
  · simp only [loadShowtimesIntoSelect, apiGet, settleTask]
    cases apiGet.settle "/showtimes" o.showtimes <;> rfl
  · simp only [loadShowtimesIntoSelect, apiGet, settleTask]
    cases apiGet.settle "/showtimes" o.q2Showtimes <;> rfl

/-! ## C11 -/

theorem regionIsProjection_of_eq {α : Type} (load : List α → Page → Page) (id : String)
    (rows : List α → List TableRow) (h : ∀ records p, (load records p).tbody id = rows records) :
    RegionIsProjection load id rows :=
  ⟨h, fun records p p' => (h records p).trans (h records p').symm,
    fun records p => (h records _).trans (h records p).symm⟩

theorem historyChange_fetched_tbody (customerId : String) (hne : customerId ≠ "")
    (status : Nat) (text : String) (history : List HistoryRow) (p : Page) :
    (historyChange customerId (fetched status text history) p).tbody "table-customer-history" =
      listingRows historyRow 4 "No tickets for this customer." history := by
  simp only [historyChange, if_neg hne, apiGet, settle_fetched, listingRows]
  split
  · rw [setTbody_tbody_self]
  · rw [foldl_appendRow, setTbody_tbody_self]
    simp [apiGet.request, Page.setTbody]

/-- C11: for every fetch-and-render loader and every successful fetch result,
the table body after the load is a function of the fetched records alone (the
placeholder row for none, else one rendered row per record), whatever the body
held before; so a second run on the same result leaves the body as the first
run left it. -/
theorem loaders_replace_region (status : Nat) (text : String) :
    RegionIsProjection (fun movies => loadNowPlaying (fetched status text movies))
      "table-now-playing" (listingRows nowPlayingRow 3 "No active movies.") ∧
    RegionIsProjection (fun movies => loadUpcomingMovies (fetched status text movies))
      "table-upcoming" (listingRows upcomingRow 3 "No upcoming movies.") ∧
    RegionIsProjection (fun movies => loadAllMovies (fetched status text movies))
      "table-all-movies" (listingRows allMoviesRow 3 "No movies found.") ∧
    RegionIsProjection (fun tickets => loadTicketsToday (fetched status text tickets))
      "table-tickets-today" (listingRows ticketsTodayRow 4 "No tickets sold today.") ∧
    RegionIsProjection (fun tickets => loadAllTickets (fetched status text tickets))
      "table-all-tickets" (listingRows allTicketsRow 5 "No tickets found.") ∧
    ∀ customerId : String, customerId ≠ "" →
      RegionIsProjection (fun history => historyChange customerId (fetched status text history))
        "table-customer-history" (listingRows historyRow 4 "No tickets for this customer.") := by
  refine ⟨?_, ?_, ?_, ?_, ?_, ?_⟩
  · apply regionIsProjection_of_eq
    intro records p
    simp only [loadNowPlaying, apiGet, settle_fetched, loadNowPlaying.resume]
    exact tbody_listing _ _ _ _ _
  · apply regionIsProjection_of_eq
    intro records p
    simp only [loadUpcomingMovies, apiGet, settle_fetched, loadUpcomingMovies.resume]
    exact tbody_listing _ _ _ _ _
  · apply regionIsProjection_of_eq
    intro records p
    simp only [loadAllMovies, apiGet, settle_fetched, loadAllMovies.resume]
    exact tbody_listing _ _ _ _ _
  · apply regionIsProjection_of_eq
    intro records p
    simp only [loadTicketsToday, apiGet, settle_fetched, loadTicketsToday.resume]
    exact tbody_listing _ _ _ _ _
  · apply regionIsProjection_of_eq
    intro records p
    simp only [loadAllTickets, apiGet, settle_fetched, loadAllTickets.resume]
    exact tbody_listing _ _ _ _ _
  · intro customerId hne
    apply regionIsProjection_of_eq
    intro records p
    exact historyChange_fetched_tbody customerId hne status text records p

/-- Two runs of `loadAllMovies` on one movie over a stale table, and two runs
of the history handler for customer 4 on an empty history. -/
theorem loaders_replace_region_witness :
    ((loadAllMovies (fetched 200 "" [⟨7, "Heat", "Crime", 170, "1995-12-15", true⟩])
        (loadAllMovies (fetched 200 "" [⟨7, "Heat", "Crime", 170, "1995-12-15", true⟩])
          (Page.empty.setTbody "table-all-movies" [.tr "<td>stale</td>"]))).tbody
        "table-all-movies" =
      (loadAllMovies (fetched 200 "" [⟨7, "Heat", "Crime", 170, "1995-12-15", true⟩])
        (Page.empty.setTbody "table-all-movies" [.tr "<td>stale</td>"])).tbody
        "table-all-movies") ∧
    (loadAllMovies (fetched 200 "" [⟨7, "Heat", "Crime", 170, "1995-12-15", true⟩])
        (Page.empty.setTbody "table-all-movies" [.tr "<td>stale</td>"])).tbody
        "table-all-movies" =
      [.tr ("\n        <td>Heat</td>\n        <td>Crime</td>\n        <td>" ++
        "<span class=\"badge bg-success\">Yes</span></td>\n      ")] ∧
    (historyChange "4" (fetched 200 "" [])
        (historyChange "4" (fetched 200 "" [])
          (Page.empty.setTbody "table-customer-history" [.tr "<td>stale</td>"]))).tbody
        "table-customer-history" =
      [.placeholder 4 "text-muted" "No tickets for this customer."] := by
  have h := loaders_replace_region 200 ""
  refine ⟨h.2.2.1.2.2 _ _, ?_, ?_⟩
  · rw [h.2.2.1.1 [⟨7, "Heat", "Crime", 170, "1995-12-15", true⟩]
      (Page.empty.setTbody "table-all-movies" [.tr "<td>stale</td>"])]
    decide
  · rw [(h.2.2.2.2.2 "4" (by decide)).1 []
      (historyChange "4" (fetched 200 "" [])
        (Page.empty.setTbody "table-customer-history" [.tr "<td>stale</td>"]))]
    decide

end TheaterDashboard
